import Mathlib

/-!
Verification development for the Amsons bulk-upload tool.

The Python sources `final-script.py` and `amsons_dashboard.py` are shallowly
embedded below: pure Python string/list manipulation becomes Lean functions on
`String` / `List Char`, pandas rows become association lists from column name
to cell string, the imperative per-product loop of `build_shopify_rows`
becomes a fold over an explicit `BuildState`, and file / network effects are
replaced by explicit parameters (the parsed previous-export column, the image
probe function).

Python string primitives (`str.strip`, `str.lower`, ...) are re-implemented on
character lists (`pyStrip`, `pyLower`, ...) so that all definitions evaluate
inside the kernel; they model the ASCII behaviour of the Python originals,
which is the relevant case for every constant string appearing in the tool.
-/

/-- Python truthiness-based whitespace set used by `str.strip()` /
pandas `str.strip()` (ASCII part: space, tab, newline, carriage return,
vertical tab, form feed). -/
def isPySpace (c : Char) : Bool :=
  c == ' ' || c == '\t' || c == '\n' || c == '\r' || c == Char.ofNat 11 || c == Char.ofNat 12

/-- ASCII lowering of one character, as done by Python `str.lower()` on the
ASCII inputs this tool manipulates. -/
def pyLowerChar (c : Char) : Char :=
  if 65 ≤ c.toNat ∧ c.toNat ≤ 90 then Char.ofNat (c.toNat + 32) else c

/-- Python `str.lower()` (ASCII fragment). -/
def pyLower (s : String) : String :=
  String.mk (s.data.map pyLowerChar)

/-- Python `str.strip()` with no argument: drop leading and trailing
whitespace. -/
def pyStrip (s : String) : String :=
  String.mk (((s.data.dropWhile isPySpace).reverse.dropWhile isPySpace).reverse)

/-- Python `a or b` on strings: the first operand if it is non-empty
(truthy), otherwise the second. -/
def pyOr (a b : String) : String :=
  if a = ("") then b else a

/-- Decimal digit test, Python `str.isdigit` on ASCII. -/
def isDigitChar (c : Char) : Bool :=
  48 ≤ c.toNat && c.toNat ≤ 57

/-- Value of a list of decimal digit characters. -/
def digitsVal (cs : List Char) : Nat :=
  cs.foldl (fun n c => n * 10 + (c.toNat - 48)) 0

/-- Zero padding, Python `f"{n:0wd}"` for non-negative `n`: left-pad the
decimal representation with zeros to the requested width. -/
def format0 (width n : Nat) : String :=
  String.mk (List.replicate (width - (toString n).length) '0') ++ toString n

/-- Substring test on character lists (Python `needle in haystack`). -/
def listContainsSub (needle : List Char) : List Char → Bool
  | [] => needle.isEmpty
  | c :: rest => needle.isPrefixOf (c :: rest) || listContainsSub needle rest

-- ---------------------------------------------------------------------------
-- final-script.py: regex & parsing helpers
-- ---------------------------------------------------------------------------

/-- Python `str.split(sep)` for a one-character separator: split at every
occurrence, keeping empty parts. -/
def splitOnCharAux (sep : Char) : List Char → List Char → List (List Char)
  | acc, [] => [acc.reverse]
  | acc, c :: rest =>
    if c == sep then acc.reverse :: splitOnCharAux sep [] rest
    else splitOnCharAux sep (c :: acc) rest

/-- `s.split(sep)` on strings. -/
def pySplit (s : String) (sep : Char) : List String :=
  (splitOnCharAux sep [] s.data).map String.mk

/-- `split_pipe` (final-script.py): split a cell on `|`, strip each part,
drop empty parts; a blank cell gives `[]`. -/
def split_pipe (val : String) : List String :=
  if pyStrip val = ("") then []
  else ((pySplit val '|').map pyStrip).filter (fun p => p != (""))

/-- `coerce_bool_token` (final-script.py). -/
def coerce_bool_token (x : String) : String :=
  let s := pyLower (pyStrip x)
  if [("true"), ("t"), ("yes"), ("y"), ("1")].contains s then ("TRUE")
  else if [("false"), ("f"), ("no"), ("n"), ("0")].contains s then ("FALSE")
  else ("")

/-- `STATUS_VALUES` (final-script.py). -/
def STATUS_VALUES : List String := [("active"), ("draft"), ("archived")]

/-- `WEIGHT_UNITS` (final-script.py). -/
def WEIGHT_UNITS : List String := [("g"), ("kg"), ("lb"), ("oz")]

/-- Parse a decimal literal (optional sign, integer part, optional fractional
part) into a rational, modelling Python `float(val)` on the decimal strings
this tool feeds it; other float syntaxes (exponents, inf/nan) are rejected,
as they do not occur in weight cells. -/
def parseDecimal (s : String) : Option Rat :=
  let cs := (pyStrip s).data
  let signRest : Int × List Char :=
    match cs with
    | c :: rest =>
      if c == '-' then (-1, rest) else if c == '+' then (1, rest) else (1, cs)
    | [] => (1, [])
  let ip := signRest.2.takeWhile isDigitChar
  let rest2 := signRest.2.dropWhile isDigitChar
  match rest2 with
  | [] => if ip.isEmpty then none else some ((signRest.1 * (digitsVal ip : Int) : Int) : Rat)
  | c :: rest3 =>
    if c == '.' then
      let fp := rest3.takeWhile isDigitChar
      let rest4 := rest3.dropWhile isDigitChar
      if rest4.isEmpty && !(ip.isEmpty && fp.isEmpty) then
        some ((signRest.1 : Rat) *
          ((digitsVal ip : Rat) + (digitsVal fp : Rat) / ((10 : Rat) ^ fp.length)))
      else none
    else none

/-- Python 3 `round` to the nearest integer, ties to even. -/
def roundHalfEven (q : Rat) : Int :=
  let f := Rat.floor q
  let frac := q - (f : Rat)
  if frac < (1 : Rat) / 2 then f
  else if (1 : Rat) / 2 < frac then f + 1
  else if f % 2 = 0 then f else f + 1

/-- `grams_from_weight` (final-script.py); float arithmetic is modelled with
exact rationals. The result is rendered as the decimal string that ends up in
the output cell. -/
def grams_from_weight (val unit : String) : String :=
  match parseDecimal val with
  | none => ("")
  | some w =>
    let u := pyLower (pyStrip unit)
    if u = ("kg") then toString (roundHalfEven (w * 1000))
    else if u = ("g") then toString (roundHalfEven w)
    else if u = ("lb") then toString (roundHalfEven (w * ((45359237 : Rat) / 100000)))
    else if u = ("oz") then toString (roundHalfEven (w * ((283495231 : Rat) / 10000000)))
    else ("")

/-- `is_url` (final-script.py): `re.match(r"^https?://", s.strip(), re.I)`. -/
def is_url (s : String) : Bool :=
  let t := (pyLower (pyStrip s)).data
  ("http://").data.isPrefixOf t || ("https://").data.isPrefixOf t

/-- Extension alternatives of the regex `\.(jpg|jpeg|png|gif|webp|tiff?)`;
`tiff?` contributes both `tif` and `tiff`. -/
def imageExtAlternatives : List String :=
  [("jpg"), ("jpeg"), ("png"), ("gif"), ("webp"), ("tif"), ("tiff")]

/-- The `($|\?)` tail of the image-extension regex: end of string or a
literal question mark. -/
def extBoundaryOk : List Char → Bool
  | [] => true
  | c :: _ => c == '?'

/-- Does `\.(jpg|jpeg|png|gif|webp|tiff?)($|\?)` match starting exactly at
the head of the list? -/
def matchesImageExtAt : List Char → Bool
  | [] => false
  | c :: rest =>
    c == '.' && imageExtAlternatives.any
      (fun e => e.data.isPrefixOf rest && extBoundaryOk (rest.drop e.length))

/-- `re.search` of the image-extension pattern: does it match at any
position? -/
def searchImageExt : List Char → Bool
  | [] => false
  | c :: rest => matchesImageExtAt (c :: rest) || searchImageExt rest

/-- `looks_like_image_url` (final-script.py). -/
def looks_like_image_url (s : String) : Bool :=
  searchImageExt (pyLower s).data

/-- `check_image_url` (final-script.py) in the degraded mode where the
`requests` library is unavailable (`requests is None`); the network branch
performs HTTP I/O and is outside this embedding. Returns the `(ok, note)`
pair. -/
def check_image_url (url : String) : Bool × String :=
  if url = ("") || !(is_url url) then (false, ("Not a URL"))
  else (looks_like_image_url url, ("requests not installed; only extension check"))

/-- `uniqueness_suffix` (final-script.py): pick `base` if unused, otherwise
the first `base-i` (i = 1, 2, ...) not in the set; returns the choice and the
grown set. The Python `while True` loop is bounded here by pigeonhole: among
`|existing| + 1` distinct candidates one is always free, so the fallback arm
is unreachable. -/
def uniqueness_suffix (existing : List String) (base : String) : String × List String :=
  if !(existing.contains base) then (base, base :: existing)
  else
    match ((List.range (existing.length + 1)).map
        (fun k => base ++ ("-") ++ toString (k + 1))).find?
        (fun c => !(existing.contains c)) with
    | some c => (c, c :: existing)
    | none => (base, existing)

/-- One step of `re.sub(r"[^a-z0-9]+", "-", s)`: the flag remembers whether
we are inside a run of excluded characters (which collapses to one dash). -/
def subNonAlnumRuns : Bool → List Char → List Char
  | _, [] => []
  | inRun, c :: rest =>
    if (97 ≤ c.toNat && c.toNat ≤ 122) || isDigitChar c then
      c :: subNonAlnumRuns false rest
    else if inRun then subNonAlnumRuns true rest
    else '-' :: subNonAlnumRuns true rest

/-- One step of `re.sub(r"-+", "-", s)`. -/
def collapseDashRuns : Bool → List Char → List Char
  | _, [] => []
  | inRun, c :: rest =>
    if c == '-' then
      if inRun then collapseDashRuns true rest else '-' :: collapseDashRuns true rest
    else c :: collapseDashRuns false rest

/-- `slugify_str` (final-script.py), fallback branch used when the
`python-slugify` library is not installed: lowercase, replace runs of
non-alphanumerics with `-`, collapse dashes, strip dashes, cap at 255. -/
def slugify_str (s : String) : String :=
  let t := (pyLower s).data
  let step1 := subNonAlnumRuns false t
  let step2 := collapseDashRuns false step1
  let step3 := ((step2.dropWhile (fun c => c == '-')).reverse.dropWhile
    (fun c => c == '-')).reverse
  String.mk (step3.take 255)

/-- `_clean_sku_text` (final-script.py): strip whitespace, strip leading
ASCII apostrophes and leading right single quotes, strip again. -/
def clean_sku_text (s : String) : String :=
  let t1 := (pyStrip s).data
  let t2 := t1.dropWhile (fun c => c == Char.ofNat 39)
  let t3 := t2.dropWhile (fun c => c == Char.ofNat 8217)
  pyStrip (String.mk t3)

/-- `extract_base_6` (final-script.py): the 6-digit base when the cleaned
SKU matches `^\d{6}(-\d{2})?$`, else `none`. -/
def extract_base_6 (s : String) : Option Nat :=
  let cs := (clean_sku_text s).data
  let d6 := cs.take 6
  let rest := cs.drop 6
  if d6.length = 6 ∧ d6.all isDigitChar then
    match rest with
    | [] => some (digitsVal d6)
    | c :: r2 =>
      if c == '-' ∧ r2.length = 2 ∧ r2.all isDigitChar then some (digitsVal d6) else none
  else none

-- ---------------------------------------------------------------------------
-- final-script.py: broadcasting
-- ---------------------------------------------------------------------------

/-- A validation / build issue dict (`{"level": ..., "row": ..., "field": ...,
"message": ...}`). -/
structure Issue where
  level : String
  row : Nat
  field : String
  message : String
deriving DecidableEq, Repr

/-- The triple `for i in range(n1): for j in range(n2): for k in range(n3)`
loop shape shared by the broadcasting branches. -/
def gridMap (n1 n2 n3 : Nat) (f : Nat → Nat → Nat → String) : List String :=
  (List.range n1).flatMap (fun i =>
    (List.range n2).flatMap (fun j =>
      (List.range n3).map (fun k => f i j k)))

/-- The `Count mismatch for broadcasting` warning of the fallback branch. -/
def broadcastMismatchWarn (have_ n1 n2 n3 : Nat) (field : String) (rownum : Nat) : Issue :=
  { level := ("warning"), row := rownum, field := field,
    message := ("Count mismatch for broadcasting: have ") ++ toString have_ ++
      (", expected 1, ") ++ toString n1 ++ (", ") ++ toString n2 ++ (", ") ++
      toString n3 ++ (", ") ++ toString (n1 * n2) ++ (", ") ++ toString (n1 * n3) ++
      (", ") ++ toString (n2 * n3) ++ (", or ") ++ toString (n1 * n2 * n3) ++
      (". Repeating/truncating.") }

/-- Branch chain of `broadcast_values` (final-script.py) over the already
split pipe list: broadcast to the full `n1 × n2 × n3` variant grid in
dimension-1-major order, with the mismatch fallback repeating the last value
or truncating. Returns the broadcast list together with the warnings
appended to `issues` by the call (the two `n1*n2`-style index expressions
close the source's running counters: `idx = i*n2 + j` and `i*n3 + k`). -/
def broadcastCore (vals : List String) (n1 n2 n3 : Nat) (field : String)
    (rownum : Nat) : List String × List Issue :=
  if vals.length = 0 then (List.replicate (n1 * n2 * n3) (""), [])
  else if vals.length = 1 then ((List.replicate (n1 * n2 * n3) vals).flatten, [])
  else if vals.length = n1 * n2 * n3 then (vals, [])
  else if vals.length = n1 then (gridMap n1 n2 n3 (fun i _ _ => vals.getD i ("")), [])
  else if vals.length = n2 then (gridMap n1 n2 n3 (fun _ j _ => vals.getD j ("")), [])
  else if vals.length = n3 then (gridMap n1 n2 n3 (fun _ _ k => vals.getD k ("")), [])
  else if vals.length = n1 * n2 ∧ 1 < n3 then
    (gridMap n1 n2 n3 (fun i j _ => vals.getD (i * n2 + j) ("")), [])
  else if vals.length = n1 * n3 ∧ 1 < n2 then
    (gridMap n1 n2 n3 (fun i _ k => vals.getD (i * n3 + k) ("")), [])
  else if vals.length = n2 * n3 ∧ 1 < n1 then
    ((List.range n1).flatMap (fun _ => vals), [])
  else if vals.length < n1 * n2 * n3 then
    (vals ++ List.replicate (n1 * n2 * n3 - vals.length) (vals.getLastD ("")),
     [broadcastMismatchWarn vals.length n1 n2 n3 field rownum])
  else (vals.take (n1 * n2 * n3), [broadcastMismatchWarn vals.length n1 n2 n3 field rownum])

/-- `broadcast_values` (final-script.py): `vals = split_pipe(value_str)`
followed by the branch chain above. -/
def broadcast_values (value_str : String) (n1 n2 n3 : Nat) (field : String)
    (rownum : Nat) : List String × List Issue :=
  broadcastCore (split_pipe value_str) n1 n2 n3 field rownum

-- ---------------------------------------------------------------------------
-- Rows: a pandas row / Shopify output row is an association list from column
-- name to cell string (all cells are strings after `df.fillna("")`).
-- ---------------------------------------------------------------------------

/-- An input or output row: ordered association list, as a Python dict /
pandas Series of strings. -/
abbrev Row := List (String × String)

/-- `r.get(col, "")` on a string row. -/
def rowGet (r : Row) (k : String) : String :=
  (((r.find? (fun p => p.1 == k)).map (fun p => p.2)).getD (""))

/-- Python dict assignment `d[k] = v`: overwrite in place if the key exists,
else append. -/
def dictSet (d : Row) (k v : String) : Row :=
  if d.any (fun p => p.1 == k) then
    d.map (fun p => if p.1 == k then (k, v) else p)
  else d ++ [(k, v)]

/-- `SHOPIFY_HEADERS` (final-script.py). -/
def SHOPIFY_HEADERS : List String :=
  [("Handle"), ("Title"), ("Body (HTML)"), ("Vendor"), ("Type"), ("Tags"), ("Published"),
   ("Option1 Name"), ("Option1 Value"), ("Option2 Name"), ("Option2 Value"),
   ("Option3 Name"), ("Option3 Value"),
   ("Variant SKU"), ("Variant Grams"), ("Variant Inventory Tracker"),
   ("Variant Inventory Qty"), ("Variant Inventory Policy"),
   ("Variant Fulfillment Service"), ("Variant Price"), ("Variant Compare At Price"),
   ("Variant Requires Shipping"), ("Variant Taxable"), ("Variant Barcode"),
   ("Image Src"), ("Image Position"), ("Image Alt Text"),
   ("Gift Card"), ("SEO Title"), ("SEO Description"), ("Status"), ("Variant Weight Unit")]

-- ---------------------------------------------------------------------------
-- final-script.py: per-size pipe builders (barcode / weight / inventory /
-- grams share one shape, differing in base column, exclusions and prefix)
-- ---------------------------------------------------------------------------

/-- `re.split(r"[ _-]+", col_str, 1)`: split at the first maximal run of
space / underscore / hyphen, keeping at most two parts. -/
def splitOnceSepRun (s : String) : List String :=
  let isSep := fun (c : Char) => c == ' ' || c == '_' || c == '-'
  let before := s.data.takeWhile (fun c => !(isSep c))
  let rest := s.data.dropWhile (fun c => !(isSep c))
  if rest.isEmpty then [String.mk before]
  else [String.mk before, String.mk (rest.dropWhile isSep)]

/-- The `per_size` dict scan shared by the four `build_*_pipe_for_sizes`
helpers: collect `suffix.lower() -> value` from columns whose lowered name
starts with `colPrefixLower` and is not excluded. -/
def perSizeDict (r : Row) (colPrefixLower : String) (excluded : List String) : Row :=
  r.foldl (fun acc p =>
    let colStr := pyStrip p.1
    let colLower := pyLower colStr
    if !(colPrefixLower.data.isPrefixOf colLower.data) then acc
    else if excluded.contains colStr then acc
    else if pyStrip p.2 = ("") then acc
    else
      match splitOnceSepRun colStr with
      | [_, suffix] =>
        if pyStrip suffix = ("") then acc
        else dictSet acc (pyLower (pyStrip suffix)) (pyStrip p.2)
      | _ => acc) []

/-- Common body of `build_barcode_pipe_for_sizes` /
`build_weight_pipe_for_sizes` / `build_inventory_pipe_for_sizes` /
`build_grams_pipe_for_sizes` (final-script.py): prefer the base column's
pipe list normalised to the size count, else fall back to per-size columns. -/
def buildPipeForSizes (baseCol : String) (colPrefixLower : String)
    (excluded : List String) (r : Row) (o1vals : List String) : String :=
  let base := rowGet r baseCol
  if pyStrip base ≠ ("") then
    let parts := (pySplit base '|').map pyStrip
    let parts2 :=
      if o1vals ≠ [] then
        if parts.length < o1vals.length then
          parts ++ List.replicate (o1vals.length - parts.length) ("")
        else if o1vals.length < parts.length then parts.take o1vals.length
        else parts
      else parts
    String.intercalate ("|") parts2
  else if o1vals = [] then ("")
  else
    let perSize := perSizeDict r colPrefixLower excluded
    if perSize = [] then ("")
    else String.intercalate ("|")
      (o1vals.map (fun size =>
        (((perSize.find? (fun p => p.1 == pyLower (pyStrip size))).map
          (fun p => p.2)).getD (""))))

/-- `build_barcode_pipe_for_sizes` (final-script.py). -/
def build_barcode_pipe_for_sizes (r : Row) (o1vals : List String) : String :=
  buildPipeForSizes ("Variant Barcode (EAN/UPC)") ("barcode")
    [("Variant Barcode (EAN/UPC)"), ("Variant Barcode")] r o1vals

/-- `build_weight_pipe_for_sizes` (final-script.py). -/
def build_weight_pipe_for_sizes (r : Row) (o1vals : List String) : String :=
  buildPipeForSizes ("Variant Weight") ("weight")
    [("Variant Weight"), ("Variant Weight Unit (g,kg,lb,oz)")] r o1vals

/-- `build_inventory_pipe_for_sizes` (final-script.py). -/
def build_inventory_pipe_for_sizes (r : Row) (o1vals : List String) : String :=
  buildPipeForSizes ("Variant Inventory") ("inventory") [("Variant Inventory")] r o1vals

/-- `build_grams_pipe_for_sizes` (final-script.py). -/
def build_grams_pipe_for_sizes (r : Row) (o1vals : List String) : String :=
  buildPipeForSizes ("Variant Grams") ("grams") [("Variant Grams")] r o1vals

/-- `_inv_to_qty` (final-script.py, local to `build_shopify_rows`). -/
def inv_to_qty (tok : String) : String :=
  let s := pyLower (pyStrip tok)
  if [(""), ("1"), ("in"), ("instock"), ("in stock"), ("true"), ("yes")].contains s then ("1000")
  else if [("0"), ("out"), ("oos"), ("outofstock"), ("out of stock"), ("false"), ("no")].contains s then ("0")
  else if s ≠ ("") ∧ s.data.all isDigitChar then s
  else ("1000")

-- ---------------------------------------------------------------------------
-- final-script.py: build_shopify_rows, decomposed into per-product values
-- (each definition mirrors the correspondingly named local of the loop body)
-- ---------------------------------------------------------------------------

/-- `title = str(r.get("Title*","")).strip()`. -/
def productTitle (r : Row) : String := pyStrip (rowGet r ("Title*"))

/-- `vendor = str(r.get("Vendor*","")).strip()`. -/
def productVendor (r : Row) : String := pyStrip (rowGet r ("Vendor*"))

/-- `status` before the whitelist check: lowercased strip with default
`active`. -/
def productStatusRaw (r : Row) : String :=
  pyOr (pyLower (pyStrip (rowGet r ("Status (active/draft/archived)")))) ("active")

/-- `status` after the whitelist check (unknown statuses fall back to
`active` with a warning recorded separately). -/
def productStatus (r : Row) : String :=
  if STATUS_VALUES.contains (productStatusRaw r) then productStatusRaw r else ("active")

/-- `published = coerce_bool_token(...) or "TRUE"`. -/
def productPublished (r : Row) : String :=
  pyOr (coerce_bool_token (rowGet r ("Published (TRUE/FALSE)"))) ("TRUE")

/-- `o1n = (str(r.get("Option1 Name","")).strip() or "Title")`. -/
def productO1Name (r : Row) : String :=
  pyOr (pyStrip (rowGet r ("Option1 Name"))) ("Title")

/-- `o1vals` after the two `Default Title` fallbacks. -/
def productO1Vals (r : Row) : List String :=
  let o1vals := split_pipe (rowGet r ("Option1 Values"))
  if pyLower (productO1Name r) = ("title") ∧ o1vals = [] then [("Default Title")]
  else if o1vals = [] then [("Default Title")]
  else o1vals

/-- `o2n`. -/
def productO2Name (r : Row) : String := pyStrip (rowGet r ("Option2 Name"))

/-- `o2l = o2vals if (o2n and o2vals) else [""]`. -/
def productO2List (r : Row) : List String :=
  let v := split_pipe (rowGet r ("Option2 Values"))
  if productO2Name r ≠ ("") ∧ v ≠ [] then v else [("")]

/-- `o3n`. -/
def productO3Name (r : Row) : String := pyStrip (rowGet r ("Option3 Name"))

/-- `o3l = o3vals if (o3n and o3vals) else [""]`. -/
def productO3List (r : Row) : List String :=
  let v := split_pipe (rowGet r ("Option3 Values"))
  if productO3Name r ≠ ("") ∧ v ≠ [] then v else [("")]

/-- `combos = list(itertools.product(o1vals, o2l, o3l))`
(dimension-1-major order). -/
def productCombos (r : Row) : List (String × String × String) :=
  (productO1Vals r).flatMap (fun a =>
    (productO2List r).flatMap (fun b =>
      (productO3List r).map (fun c => (a, b, c))))

/-- `nvars = len(combos)`. -/
def productVariantCount (r : Row) : Nat := (productCombos r).length

/-- `n1`. -/
def productN1 (r : Row) : Nat := (productO1Vals r).length

/-- `n2`. -/
def productN2 (r : Row) : Nat := (productO2List r).length

/-- `n3`. -/
def productN3 (r : Row) : Nat := (productO3List r).length

/-- Issues appended before the variant-cap check: empty title, empty vendor,
unknown status (in source order). -/
def productPreIssues (excelRow : Nat) (r : Row) : List Issue :=
  (if productTitle r = ("") then
    [{ level := ("error"), row := excelRow, field := ("Title*"), message := ("Empty title") }]
   else []) ++
  (if productVendor r = ("") then
    [{ level := ("error"), row := excelRow, field := ("Vendor*"), message := ("Empty vendor") }]
   else []) ++
  (if !(STATUS_VALUES.contains (productStatusRaw r)) then
    [{ level := ("warning"), row := excelRow, field := ("Status"),
       message := ("Unknown status '") ++ productStatusRaw r ++ ("', defaulting to active") }]
   else [])

/-- `handle_src = str(r.get("Handle (optional)","")).strip() or title or
f"product-{excel_row}"`. -/
def productHandleSrc (excelRow : Nat) (r : Row) : String :=
  pyOr (pyStrip (rowGet r ("Handle (optional)")))
    (pyOr (productTitle r) (("product-") ++ toString excelRow))

/-- `handle = uniqueness_suffix(used_handles, slugify_str(handle_src))`,
returning the handle and the grown `used_handles` set. -/
def productHandlePair (used : List String) (excelRow : Nat) (r : Row) : String × List String :=
  uniqueness_suffix used (slugify_str (productHandleSrc excelRow r))

/-- `vprice_list`. -/
def productPriceList (excelRow : Nat) (r : Row) : List String :=
  (broadcast_values (rowGet r ("Variant Price*")) (productN1 r) (productN2 r) (productN3 r)
    ("Variant Price*") excelRow).1

/-- `vcmp_list`. -/
def productCmpList (excelRow : Nat) (r : Row) : List String :=
  (broadcast_values (rowGet r ("Variant Compare At Price")) (productN1 r) (productN2 r)
    (productN3 r) ("Variant Compare At Price") excelRow).1

/-- `inv_value_str = build_inventory_pipe_for_sizes(r, o1vals) or
str(r.get("Variant Inventory","")).strip() or "1"`. -/
def productInvValueStr (r : Row) : String :=
  pyOr (build_inventory_pipe_for_sizes r (productO1Vals r))
    (pyOr (pyStrip (rowGet r ("Variant Inventory"))) ("1"))

/-- `vinv_list_raw`. -/
def productInvListRaw (excelRow : Nat) (r : Row) : List String :=
  (broadcast_values (productInvValueStr r) (productN1 r) (productN2 r) (productN3 r)
    ("Variant Inventory") excelRow).1

/-- `vqty_list = [_inv_to_qty(x) for x in vinv_list_raw]`. -/
def productQtyList (excelRow : Nat) (r : Row) : List String :=
  (productInvListRaw excelRow r).map inv_to_qty

/-- `vbar_list`. -/
def productBarcodeList (excelRow : Nat) (r : Row) : List String :=
  (broadcast_values (build_barcode_pipe_for_sizes r (productO1Vals r)) (productN1 r)
    (productN2 r) (productN3 r) ("Variant Barcode") excelRow).1

/-- `grams_value_str`. -/
def productGramsStr (r : Row) : String :=
  build_grams_pipe_for_sizes r (productO1Vals r)

/-- `vgrams_list` (broadcast only when the grams pipe is non-blank). -/
def productGramsList (excelRow : Nat) (r : Row) : List String :=
  if productGramsStr r ≠ ("") then
    (broadcast_values (productGramsStr r) (productN1 r) (productN2 r) (productN3 r)
      ("Variant Grams") excelRow).1
  else List.replicate (productVariantCount r) ("")

/-- `vwt_list`. -/
def productWeightList (excelRow : Nat) (r : Row) : List String :=
  (broadcast_values (build_weight_pipe_for_sizes r (productO1Vals r)) (productN1 r)
    (productN2 r) (productN3 r) ("Variant Weight") excelRow).1

/-- `vunit_list` (before per-variant lowering). -/
def productUnitList (excelRow : Nat) (r : Row) : List String :=
  (broadcast_values (rowGet r ("Variant Weight Unit (g,kg,lb,oz)")) (productN1 r)
    (productN2 r) (productN3 r) ("Variant Weight Unit") excelRow).1

/-- `vship_list`. -/
def productShipList (excelRow : Nat) (r : Row) : List String :=
  ((broadcast_values (rowGet r ("Variant Requires Shipping (TRUE/FALSE)")) (productN1 r)
    (productN2 r) (productN3 r) ("Variant Requires Shipping") excelRow).1).map
    (fun x => pyOr (coerce_bool_token x) ("TRUE"))

/-- `vtax_list`. -/
def productTaxList (excelRow : Nat) (r : Row) : List String :=
  ((broadcast_values (rowGet r ("Variant Taxable (TRUE/FALSE)")) (productN1 r)
    (productN2 r) (productN3 r) ("Variant Taxable") excelRow).1).map
    (fun x => pyOr (coerce_bool_token x) ("TRUE"))

/-- The warnings appended by the broadcasting calls, in source order. -/
def productBroadcastIssues (excelRow : Nat) (r : Row) : List Issue :=
  (broadcast_values (rowGet r ("Variant Price*")) (productN1 r) (productN2 r) (productN3 r)
    ("Variant Price*") excelRow).2 ++
  (broadcast_values (rowGet r ("Variant Compare At Price")) (productN1 r) (productN2 r)
    (productN3 r) ("Variant Compare At Price") excelRow).2 ++
  (broadcast_values (productInvValueStr r) (productN1 r) (productN2 r) (productN3 r)
    ("Variant Inventory") excelRow).2 ++
  (broadcast_values (build_barcode_pipe_for_sizes r (productO1Vals r)) (productN1 r)
    (productN2 r) (productN3 r) ("Variant Barcode") excelRow).2 ++
  (if productGramsStr r ≠ ("") then
    (broadcast_values (productGramsStr r) (productN1 r) (productN2 r) (productN3 r)
      ("Variant Grams") excelRow).2
   else []) ++
  (broadcast_values (build_weight_pipe_for_sizes r (productO1Vals r)) (productN1 r)
    (productN2 r) (productN3 r) ("Variant Weight") excelRow).2 ++
  (broadcast_values (rowGet r ("Variant Weight Unit (g,kg,lb,oz)")) (productN1 r)
    (productN2 r) (productN3 r) ("Variant Weight Unit") excelRow).2 ++
  (broadcast_values (rowGet r ("Variant Requires Shipping (TRUE/FALSE)")) (productN1 r)
    (productN2 r) (productN3 r) ("Variant Requires Shipping") excelRow).2 ++
  (broadcast_values (rowGet r ("Variant Taxable (TRUE/FALSE)")) (productN1 r)
    (productN2 r) (productN3 r) ("Variant Taxable") excelRow).2

/-- `image_pairs`: the `(Image URL n, Image Alt n)` pairs, `n = 1..8`, whose
URL cell is non-blank (Python truthiness). -/
def productImagePairs (r : Row) : List (String × String) :=
  ((List.range 8).map (fun n =>
    (rowGet r (("Image URL ") ++ toString (n + 1)),
     rowGet r (("Image Alt ") ++ toString (n + 1))))).filter (fun p => p.1 != (""))

/-- `existing_skus = split_pipe(r.get("Variant SKU",""))`. -/
def productExistingSkus (r : Row) : List String :=
  split_pipe (rowGet r ("Variant SKU"))

/-- The condition `respect_existing and any(existing_skus)`. -/
def productRespectBranch (respect : Bool) (r : Row) : Bool :=
  respect && (productExistingSkus r).any (fun s => s != (""))

/-- `ex = broadcast_values(r.get("Variant SKU",""), ...)` of the
respect-existing branch. -/
def productSkuBroadcast (excelRow : Nat) (r : Row) : List String × List Issue :=
  broadcast_values (rowGet r ("Variant SKU")) (productN1 r) (productN2 r) (productN3 r)
    ("Variant SKU") excelRow

/-- `need_fill = [idx for idx, s in enumerate(assigned_skus) if not s]`. -/
def productNeedFill (excelRow : Nat) (r : Row) : List Nat :=
  (List.range (productSkuBroadcast excelRow r).1.length).filter
    (fun i => ((productSkuBroadcast excelRow r).1.getD i ("")) == (""))

/-- The `for idxv in need_fill` loop with its running `counter`: fill each
blank slot with `base-{counter:02d}`. -/
def fillSkus (base : String) : Nat → List String → List String
  | _, [] => []
  | counter, s :: t =>
    if s == ("") then (base ++ ("-") ++ format0 2 counter) :: fillSkus base (counter + 1) t
    else s :: fillSkus base counter t

/-- The non-respect branch of SKU assignment: `{base:06d}` for a single
variant, `{base:06d}-{j:02d}`, `j = 1..nvars`, otherwise. -/
def defaultAssignedSkus (b nvars : Nat) : List String :=
  if nvars = 1 then [format0 6 b]
  else (List.range nvars).map (fun j => format0 6 b ++ ("-") ++ format0 2 (j + 1))

/-- `assigned_skus` as finally assigned, for allocator base `b`. -/
def productAssignedSkus (respect : Bool) (b excelRow : Nat) (r : Row) : List String :=
  if productRespectBranch respect r then
    let ex := (productSkuBroadcast excelRow r).1
    if productNeedFill excelRow r ≠ [] then
      if productVariantCount r = 1 then ex.set 0 (format0 6 b)
      else fillSkus (format0 6 b) 1 ex
    else ex
  else defaultAssignedSkus b (productVariantCount r)

/-- How much `next_base` grows for this product (`next_base += 1` happens in
the default branch always, in the respect branch only when blanks were
filled). -/
def productBaseStep (respect : Bool) (excelRow : Nat) (r : Row) : Nat :=
  if productRespectBranch respect r then
    (if productNeedFill excelRow r ≠ [] then 1 else 0)
  else 1

/-- The broadcast warnings of the respect-existing SKU broadcast (absent in
the default branch). -/
def productSkuIssues (respect : Bool) (excelRow : Nat) (r : Row) : List Issue :=
  if productRespectBranch respect r then (productSkuBroadcast excelRow r).2 else []

/-- `df.at[i, "Variant SKU"] = "|".join(assigned_skus)`. -/
def productCell (respect : Bool) (b excelRow : Nat) (r : Row) : String :=
  String.intercalate ("|") (productAssignedSkus respect b excelRow r)

/-- The `Empty price for variant #...` errors of the variant loop, in loop
order. -/
def productPriceIssues (excelRow : Nat) (r : Row) : List Issue :=
  ((List.range (productVariantCount r)).filter
    (fun idxv => (productPriceList excelRow r).getD idxv ("") == (""))).map
    (fun idxv =>
      { level := ("error"), row := excelRow, field := ("Variant Price*"),
        message := ("Empty price for variant #") ++ toString (idxv + 1) })

/-- An entry of `image_results`. -/
structure ImageResult where
  handle : String
  position : Nat
  url : String
  ok : Bool
  note : String
deriving DecidableEq, Repr

/-- The `image_results` entries of one product: probe every image URL. -/
def productImageResults (probe : String → Bool × String) (handle : String) (r : Row) :
    List ImageResult :=
  (productImagePairs r).enum.map (fun p =>
    { handle := handle, position := p.1 + 1, url := p.2.1,
      ok := (probe p.2.1).1, note := (probe p.2.1).2 })

/-- `rimg = {k: "" for k in SHOPIFY_HEADERS}`. -/
def blankShopifyRow : Row := SHOPIFY_HEADERS.map (fun k => (k, ("")))

/-- One extra image-only row: the blank Shopify row with Handle, Image Src,
Image Position, Image Alt Text filled in. -/
def mkExtraImageRow (handle u : String) (pos : Nat) (alt : String) : Row :=
  dictSet (dictSet (dictSet (dictSet blankShopifyRow ("Handle") handle)
    ("Image Src") u) ("Image Position") (toString pos)) ("Image Alt Text") alt

/-- `extra_image_rows`: one row per image beyond the first, positions 2, 3,
... -/
def productExtraImageRows (handle : String) (r : Row) : List Row :=
  if productImagePairs r ≠ [] then
    ((productImagePairs r).drop 1).enum.map (fun p =>
      mkExtraImageRow handle p.2.1 (p.1 + 2) p.2.2)
  else []

/-- `base_row`: the output dict literal of the variant loop, for variant
index `idxv` and option combo `combo`. -/
def productBaseRow (respect : Bool) (b excelRow : Nat) (handle : String) (r : Row)
    (idxv : Nat) (combo : String × String × String) : Row :=
  let vprice := (productPriceList excelRow r).getD idxv ("")
  let vcmp := (productCmpList excelRow r).getD idxv ("")
  let vqty := (productQtyList excelRow r).getD idxv ("")
  let vbar := (productBarcodeList excelRow r).getD idxv ("")
  let vwt := (productWeightList excelRow r).getD idxv ("")
  let vunit := pyLower ((productUnitList excelRow r).getD idxv (""))
  let vship := (productShipList excelRow r).getD idxv ("")
  let vtax := (productTaxList excelRow r).getD idxv ("")
  let vgramsIn := pyStrip ((productGramsList excelRow r).getD idxv (""))
  let vgrams :=
    if vgramsIn ≠ ("") then vgramsIn
    else if vwt ≠ ("") ∧ WEIGHT_UNITS.contains vunit then grams_from_weight vwt vunit
    else ("")
  let vsku := (productAssignedSkus respect b excelRow r).getD idxv ("")
  [(("Handle"), handle),
   (("Title"), productTitle r),
   (("Body (HTML)"), rowGet r ("Body (HTML)")),
   (("Vendor"), productVendor r),
   (("Type"), rowGet r ("Type (Product Type)")),
   (("Tags"), rowGet r ("Tags (comma-separated)")),
   (("Published"), productPublished r),
   (("Option1 Name"), productO1Name r),
   (("Option1 Value"), combo.1),
   (("Option2 Name"), productO2Name r),
   (("Option2 Value"), combo.2.1),
   (("Option3 Name"), productO3Name r),
   (("Option3 Value"), combo.2.2),
   (("Variant SKU"), vsku),
   (("Variant Grams"), vgrams),
   (("Variant Inventory Tracker"), ("shopify")),
   (("Variant Inventory Qty"), vqty),
   (("Variant Inventory Policy"), ("deny")),
   (("Variant Fulfillment Service"), ("manual")),
   (("Variant Price"), vprice),
   (("Variant Compare At Price"), vcmp),
   (("Variant Requires Shipping"), vship),
   (("Variant Taxable"), vtax),
   (("Variant Barcode"), vbar),
   (("Gift Card"), ("FALSE")),
   (("SEO Title"), rowGet r ("SEO Title")),
   (("SEO Description"), rowGet r ("SEO Description")),
   (("Status"), productStatus r),
   (("Variant Weight Unit"), vunit)]

/-- The variant loop's row emission: the first variant row gets the first
image's fields appended and is followed immediately by the extra image rows
(`rows.append(base_row); rows.extend(extra_image_rows)`); subsequent variant
rows are appended plainly. -/
def assembleRows (mkRow : Nat → (String × String × String) → Row)
    (imagePairs : List (String × String)) (extraRows : List Row) :
    Nat → Bool → List (String × String × String) → List Row
  | _, _, [] => []
  | idxv, isFirst, c :: cs =>
    if isFirst ∧ imagePairs ≠ [] then
      (mkRow idxv c ++
        [(("Image Src"), (imagePairs.headD ((""), (""))).1),
         (("Image Position"), ("1")),
         (("Image Alt Text"), (imagePairs.headD ((""), (""))).2)]) ::
      (extraRows ++ assembleRows mkRow imagePairs extraRows (idxv + 1) false cs)
    else mkRow idxv c :: assembleRows mkRow imagePairs extraRows (idxv + 1) isFirst cs

/-- All rows emitted for one product whose variant count passed the cap. -/
def productRows (respect : Bool) (b excelRow : Nat) (handle : String) (r : Row) : List Row :=
  assembleRows (productBaseRow respect b excelRow handle r) (productImagePairs r)
    (productExtraImageRows handle r) 0 true (productCombos r)

-- ---------------------------------------------------------------------------
-- final-script.py: the build loop as a state machine
-- ---------------------------------------------------------------------------

/-- The mutable state of the `for i, r in df.iterrows()` loop. -/
structure BuildState where
  idx : Nat
  nextBase : Nat
  usedHandles : List String
  issues : List Issue
  rows : List Row
  imageResults : List ImageResult
  dfSkuCells : List String
deriving DecidableEq, Repr

/-- The `Too many variants (...)` error. -/
def overflowIssue (excelRow nvars : Nat) : Issue :=
  { level := ("error"), row := excelRow, field := ("Options"),
    message := ("Too many variants (") ++ toString nvars ++ ("). Please reduce combinations.") }

/-- One iteration of the build loop. A product over the 300-variant cap is
rejected by `continue`: it consumes its handle and leaves its original
`Variant SKU` cell, but emits no rows, probes no images and does not touch
`next_base`. -/
def processProduct (probe : String → Bool × String) (respect : Bool) (st : BuildState)
    (r : Row) : BuildState :=
  if 300 < productVariantCount r then
    { idx := st.idx + 1, nextBase := st.nextBase,
      usedHandles := (productHandlePair st.usedHandles (st.idx + 2) r).2,
      issues := st.issues ++ productPreIssues (st.idx + 2) r ++
        [overflowIssue (st.idx + 2) (productVariantCount r)],
      rows := st.rows, imageResults := st.imageResults,
      dfSkuCells := st.dfSkuCells ++ [rowGet r ("Variant SKU")] }
  else
    { idx := st.idx + 1,
      nextBase := st.nextBase + productBaseStep respect (st.idx + 2) r,
      usedHandles := (productHandlePair st.usedHandles (st.idx + 2) r).2,
      issues := st.issues ++ productPreIssues (st.idx + 2) r ++
        productBroadcastIssues (st.idx + 2) r ++ productSkuIssues respect (st.idx + 2) r ++
        productPriceIssues (st.idx + 2) r,
      rows := st.rows ++ productRows respect st.nextBase (st.idx + 2)
        (productHandlePair st.usedHandles (st.idx + 2) r).1 r,
      imageResults := st.imageResults ++
        productImageResults probe (productHandlePair st.usedHandles (st.idx + 2) r).1 r,
      dfSkuCells := st.dfSkuCells ++ [productCell respect st.nextBase (st.idx + 2) r] }

/-- The whole loop. -/
def foldProducts (probe : String → Bool × String) (respect : Bool) :
    BuildState → List Row → BuildState
  | st, [] => st
  | st, r :: rs => foldProducts probe respect (processProduct probe respect st r) rs

/-- The optional `AMS_START_BASE` environment override. -/
def envStartBase (envBase : Option String) (highestPrevBase : Nat) : Nat :=
  match envBase with
  | some s => if s ≠ ("") ∧ s.data.all isDigitChar then digitsVal s.data else highestPrevBase
  | none => highestPrevBase

/-- `next_base = (highest_prev_base + 1) if highest_prev_base else 100001`. -/
def initialNextBase (hpb : Nat) : Nat :=
  if hpb ≠ 0 then hpb + 1 else 100001

/-- The loop's initial state. -/
def buildInitState (highestPrevBase : Nat) (envBase : Option String) : BuildState :=
  { idx := 0, nextBase := initialNextBase (envStartBase envBase highestPrevBase),
    usedHandles := [], issues := [], rows := [], imageResults := [], dfSkuCells := [] }

/-- The tuple returned by `build_shopify_rows`; the written-back dataframe is
represented by its final `Variant SKU` column (`dfSkuCells`, one cell per
input row). -/
structure BuildResult where
  rows : List Row
  issues : List Issue
  highestBefore : Nat
  highestAfter : Nat
  imageResults : List ImageResult
  dfSkuCells : List String
deriving DecidableEq, Repr

/-- `build_shopify_rows` (final-script.py). The image probe is a parameter
(`check_image_url`'s network behaviour depends on the environment); the
dataframe is the list of input rows. -/
def build_shopify_rows (probe : String → Bool × String) (df : List Row)
    (highestPrevBase : Nat) (respectExisting : Bool) (envBase : Option String) :
    BuildResult :=
  let hpb := envStartBase envBase highestPrevBase
  let fin := foldProducts probe respectExisting (buildInitState highestPrevBase envBase) df
  { rows := fin.rows, issues := fin.issues, highestBefore := hpb,
    highestAfter := if 0 < fin.nextBase then fin.nextBase - 1 else hpb,
    imageResults := fin.imageResults, dfSkuCells := fin.dfSkuCells }

-- ---------------------------------------------------------------------------
-- final-script.py: load_prev_highest_base
-- ---------------------------------------------------------------------------

/-- The row-2-priority scan: first cell of the (stripped) `Variant SKU`
column that is non-blank and not the string `nan` after cleaning, returned
cleaned. -/
def firstSkuCell (cells : List String) : Option String :=
  (cells.map (fun v => clean_sku_text (pyStrip v))).find?
    (fun v => v != ("") && pyLower v != ("nan"))

/-- The fallback scan: every parsable 6-digit base in the column. -/
def parsableBases (cells : List String) : List Nat :=
  (cells.map pyStrip).filterMap (fun v => extract_base_6 (clean_sku_text v))

/-- `max(bases_prev) if bases_prev else 0`. -/
def fallbackMaxBase (cells : List String) : Nat :=
  (parsableBases cells).foldl max 0

/-- `load_prev_highest_base` (final-script.py). The file read is modelled by
its observable content: `none` for a missing previous export, `some none`
for a readable file without a `Variant SKU` column, `some (some cells)` for
the string cells of that column. -/
def load_prev_highest_base (prev : Option (Option (List String))) : Nat :=
  match prev with
  | none => 0
  | some none => 0
  | some (some cells) =>
    match firstSkuCell cells with
    | some top =>
      match extract_base_6 top with
      | some b => b
      | none => fallbackMaxBase cells
    | none => fallbackMaxBase cells

-- ---------------------------------------------------------------------------
-- amsons_dashboard.py: placeholder-body heuristic and validation wiring
-- ---------------------------------------------------------------------------

/-- `re.sub(r"<[^>]*>", "", t)` as a scanner: outside a tag, `<` opens one;
inside, the first `>` closes and discards it; a `<` never closed is emitted
untouched together with the characters after it (no match, as in the
regex). -/
def stripHtmlTags : Bool → List Char → List Char → List Char
  | false, _, [] => []
  | true, pending, [] => '<' :: pending.reverse
  | false, p, c :: rest =>
    if c == '<' then stripHtmlTags true [] rest else c :: stripHtmlTags false p rest
  | true, pending, c :: rest =>
    if c == '>' then stripHtmlTags false [] rest else stripHtmlTags true (c :: pending) rest

/-- Python `str.replace` for a non-empty needle; the fuel is the input
length, which bounds the number of steps (each consumes at least one input
character), so the fuel-exhausted arm is unreachable. -/
def replaceSub : Nat → List Char → List Char → List Char → List Char
  | 0, _, _, l => l
  | _ + 1, _, _, [] => []
  | fuel + 1, needle, repl, c :: rest =>
    if needle ≠ [] ∧ needle.isPrefixOf (c :: rest) then
      repl ++ replaceSub fuel needle repl (rest.drop (needle.length - 1))
    else c :: replaceSub fuel needle repl rest

/-- `s.replace(old, new)` on strings. -/
def pyReplace (s old new : String) : String :=
  String.mk (replaceSub s.data.length old.data new.data s.data)

/-- Split a character list into its maximal whitespace-free words. -/
def wordsAux : List Char → List Char → List (List Char)
  | acc, [] => if acc.isEmpty then [] else [acc.reverse]
  | acc, c :: rest =>
    if isPySpace c then
      if acc.isEmpty then wordsAux [] rest else acc.reverse :: wordsAux [] rest
    else wordsAux (c :: acc) rest

/-- `re.sub(r"\s+", " ", t).strip()`: collapse whitespace runs to single
spaces and drop leading/trailing whitespace. -/
def normalizeWs (cs : List Char) : List Char :=
  List.intercalate [' '] (wordsAux [] cs)

/-- The placeholder token list of `_looks_like_placeholder_body`. -/
def placeholderBadTokens : List String :=
  [("lorem ipsum"), ("placeholder"), ("coming soon"), ("tbd"),
   ("to be decided"), ("to be defined")]

/-- `_looks_like_placeholder_body` (amsons_dashboard.py). -/
def looks_like_placeholder_body (s : String) : Bool :=
  let t0 := pyLower (pyStrip s)
  let t1 := stripHtmlTags false [] t0.data
  let t2 := (pyReplace (pyReplace (String.mk t1) ("&nbsp;") (" ")) ("&#160;") (" ")).data
  let t := normalizeWs t2
  if t.isEmpty then false
  else if t.length < 20 then true
  else if placeholderBadTokens.any (fun tok => listContainsSub tok.data t) then true
  else if !t.isEmpty && t.all (fun c =>
      c == '-' || c == Char.ofNat 8211 || c == Char.ofNat 8212 ||
      c == Char.ofNat 8226 || isPySpace c) then true
  else false

/-- Error 107 per-row condition of `_worker_preflight` (amsons_dashboard.py):
non-blank `Title*` and blank `Body (HTML)`. -/
def error107_fires (titleCell bodyCell : String) : Bool :=
  (pyStrip titleCell != ("")) && (pyStrip bodyCell == (""))

/-- Error 112 per-row condition of `_worker_preflight` (amsons_dashboard.py):
the placeholder heuristic, evaluated only when `body.strip()` is truthy
(blank bodies are error 107's business). -/
def error112_fires (bodyCell : String) : Bool :=
  (pyStrip bodyCell != ("")) && looks_like_placeholder_body bodyCell

/-- `_worker_validate_only` posts `__VALIDATION_FAIL__` exactly when the
collected `codes` set is non-empty, which is what sets
`last_validation["has_errors"]`. -/
def validation_outcome_has_errors (codes : List String) : Bool :=
  !codes.isEmpty

/-- The gate at the top of `_run_only` (amsons_dashboard.py): with errors
recorded, the run proceeds only when the override checkbox is ticked, codes
is non-empty, and every code is `101`; with no errors it proceeds. -/
def run_only_gate (hasErrors : Bool) (codes : List String)
    (proceedDespiteErrors : Bool) : Bool :=
  if hasErrors then
    proceedDespiteErrors && !codes.isEmpty && codes.all (fun c => c == ("101"))
  else true

-- ---------------------------------------------------------------------------
-- Spec-side model for the image-suffix refinement claim
-- ---------------------------------------------------------------------------

/-- Modelled from the spec's words, for comparison with the code's
`looks_like_image_url`: "ok iff the URL path ends in a known image suffix
(jpg/jpeg/png/gif/webp/tiff)" — the path being the URL up to a query string,
compared case-insensitively. -/
def spec_image_suffix_ok (url : String) : Bool :=
  let path := (pyLower url).data.takeWhile (fun c => !(c == '?'))
  [("jpg"), ("jpeg"), ("png"), ("gif"), ("webp"), ("tiff")].any
    (fun e => (("." ) ++ e).data.isSuffixOf path)

-- ---------------------------------------------------------------------------
-- Derived definitions used by the theorem statements
-- ---------------------------------------------------------------------------

/-- Indexed map starting at a given index (the `for idxv, ... in
enumerate(combos)` view of the plain variant rows). -/
def enumMapFrom {α β : Type} (f : Nat → α → β) : Nat → List α → List β
  | _, [] => []
  | i, a :: as => f i a :: enumMapFrom f (i + 1) as

/-- The `Variant SKU` cell written back for a product handled by the default
(non-respect) branch with allocator base `b` and `n` variants. -/
def defaultSkuCell (b n : Nat) : String :=
  String.intercalate ("|") (defaultAssignedSkus b n)

/-- The sequence of final `Variant SKU` cells produced by the loop from
allocator base `b` (the excel row number does not influence cell values, so
a fixed one is used). -/
def cellsFrom (respect : Bool) : Nat → List Row → List String
  | _, [] => []
  | b, r :: rs =>
    (if 300 < productVariantCount r then rowGet r ("Variant SKU")
     else productCell respect b 2 r) ::
    cellsFrom respect
      (b + (if 300 < productVariantCount r then 0 else productBaseStep respect 2 r)) rs

/-- Total allocator advance over a product list. -/
def stepsFrom (respect : Bool) : List Row → Nat
  | [] => 0
  | r :: rs =>
    (if 300 < productVariantCount r then 0 else productBaseStep respect 2 r) +
    stepsFrom respect rs

/-- The image-extension regex matches somewhere in `cs`: some position holds
a dot, one of the alternative extensions, and then end-of-string or `?`. -/
def ImageExtOccurs (cs : List Char) : Prop :=
  ∃ pre ext rest, ext ∈ imageExtAlternatives ∧
    cs = pre ++ '.' :: (ext.data ++ rest) ∧
    (rest = [] ∨ ∃ r2, rest = '?' :: r2)

/-- Witness fixture: a product with a single (default) variant. -/
def singleVariantDemoRow : Row :=
  [(("Title*"), ("Mug")), (("Vendor*"), ("V")), (("Variant Price*"), ("5"))]

/-- Witness fixture: a product with two size variants and two images. -/
def twoVariantDemoRow : Row :=
  [(("Title*"), ("Tee")), (("Vendor*"), ("V")),
   (("Option1 Name"), ("Size")), (("Option1 Values"), ("S|M")),
   (("Variant Price*"), ("10")),
   (("Image URL 1"), ("http://a/1.jpg")), (("Image Alt 1"), ("one")),
   (("Image URL 2"), ("http://a/2.jpg")), (("Image Alt 2"), ("two"))]

/-- Witness fixture: a product whose option grid explodes past the 300-cap
(301 option-1 values). -/
def overflowDemoRow : Row :=
  [(("Title*"), ("Big")), (("Vendor*"), ("V")),
   (("Option1 Name"), ("N")),
   (("Option1 Values"), String.intercalate ("|") ((List.range 301).map (fun i => toString (i + 1)))),
   (("Variant Price*"), ("1"))]

-- ---------------------------------------------------------------------------
-- Theorems
-- ---------------------------------------------------------------------------

/-- Case analysis of the `($|\?)` boundary. -/
lemma extBoundaryOk_iff (t : List Char) :
    extBoundaryOk t = true ↔ (t = [] ∨ ∃ r2, t = '?' :: r2) := by
  cases t with
  | nil => simp [extBoundaryOk]
  | cons c r =>
    simp only [extBoundaryOk, beq_iff_eq]
    constructor
    · intro h
      exact Or.inr ⟨r, by rw [h]⟩
    · rintro (h | ⟨r2, h⟩)
      · exact absurd h (by simp)
      · injection h with h1 _

/-- The head-anchored image-extension match, as a decomposition. -/
lemma matchesImageExtAt_iff (cs : List Char) :
    matchesImageExtAt cs = true ↔
      ∃ ext rest, ext ∈ imageExtAlternatives ∧
        cs = '.' :: (ext.data ++ rest) ∧ (rest = [] ∨ ∃ r2, rest = '?' :: r2) := by
  cases cs with
  | nil =>
    simp only [matchesImageExtAt, Bool.false_eq_true, false_iff]
    rintro ⟨ext, rest, _, h, _⟩
    exact absurd h (by simp)
  | cons c rest =>
    simp only [matchesImageExtAt, Bool.and_eq_true, beq_iff_eq, List.any_eq_true]
    constructor
    · rintro ⟨hc, e, he, hp⟩
      obtain ⟨hpre, hbound⟩ := hp
      obtain ⟨t, ht⟩ := List.isPrefixOf_iff_prefix.mp hpre
      have hlen : e.length = e.data.length := rfl
      have hdrop : rest.drop e.length = t := by
        rw [hlen, ← ht, List.drop_left]
      refine ⟨e, t, he, ?_, ?_⟩
      · rw [hc, ← ht]
      · rw [← hdrop]
        exact (extBoundaryOk_iff _).mp hbound
    · rintro ⟨e, t, he, heq, hb⟩
      injection heq with h1 h2
      refine ⟨h1, e, he, ?_⟩
      have hpre : e.data.isPrefixOf rest = true :=
        List.isPrefixOf_iff_prefix.mpr ⟨t, h2.symm⟩
      have hlen : e.length = e.data.length := rfl
      have hdrop : rest.drop e.length = t := by
        rw [hlen, h2, List.drop_left]
      rw [hdrop]
      exact ⟨hpre, (extBoundaryOk_iff _).mpr hb⟩

/-- `re.search` over the whole list, as a decomposition. -/
lemma searchImageExt_iff (cs : List Char) :
    searchImageExt cs = true ↔ ImageExtOccurs cs := by
  induction cs with
  | nil =>
    simp only [searchImageExt, ImageExtOccurs, Bool.false_eq_true, false_iff]
    rintro ⟨pre, ext, rest, _, h, _⟩
    exact absurd h (by simp)
  | cons c rest ih =>
    simp only [searchImageExt, Bool.or_eq_true]
    constructor
    · rintro (h | h)
      · obtain ⟨e, t, he, heq, hb⟩ := (matchesImageExtAt_iff _).mp h
        exact ⟨[], e, t, he, by rw [heq]; rfl, hb⟩
      · obtain ⟨pre, e, t, he, heq, hb⟩ := ih.mp h
        exact ⟨c :: pre, e, t, he, by rw [heq]; rfl, hb⟩
    · rintro ⟨pre, e, t, he, heq, hb⟩
      cases pre with
      | nil =>
        left
        exact (matchesImageExtAt_iff _).mpr ⟨e, t, he, by simpa using heq, hb⟩
      | cons p pre2 =>
        right
        apply ih.mpr
        refine ⟨pre2, e, t, he, ?_, hb⟩
        have := heq
        simp only [List.cons_append] at this
        injection this with _ h2

/-- C9 counterexample: with the network layer unavailable, the prober accepts
`http://example.com/photo.tif`, a well-formed http URL whose path ends in
`.tif` — a suffix outside the claimed jpg/jpeg/png/gif/webp/tiff list. -/
theorem tif_url_accepted_counterexample :
    (check_image_url ("http://example.com/photo.tif")).1 = true
    ∧ is_url ("http://example.com/photo.tif") = true
    ∧ spec_image_suffix_ok ("http://example.com/photo.tif") = false := by
  decide

/-- C9 (amended): with the network layer unavailable, the prober returns ok
for a well-formed http(s) URL iff the lowercased URL contains a dot followed
by one of jpg/jpeg/png/gif/webp/tif/tiff followed by end-of-string or `?`,
and its note reports the degraded extension-only mode. -/
theorem image_probe_offline_ok_iff_ext (url : String) (h : is_url url = true) :
    ((check_image_url url).1 = true ↔ ImageExtOccurs (pyLower url).data)
    ∧ (check_image_url url).2 = ("requests not installed; only extension check") := by
  have hne : ¬(url = ("")) := by
    intro he
    rw [he] at h
    exact absurd h (by decide)
  constructor
  · rw [show (check_image_url url).1 = looks_like_image_url url by
      simp [check_image_url, hne, h]]
    exact searchImageExt_iff _
  · simp [check_image_url, hne, h]

/-- C9 witness: the amended equivalence applied at a concrete png URL. -/
theorem image_probe_offline_ok_iff_ext_witness :
    (check_image_url ("http://a/b.png")).1 = true :=
  (image_probe_offline_ok_iff_ext ("http://a/b.png") (by decide)).1.mpr
    ⟨("http://a/b").data, ("png"), [], by decide, by decide, Or.inl rfl⟩

/-- C7: the `_run_only` gate (with `has_errors` produced by the validation
worker, which fails exactly when some code was collected) lets the build
phase proceed iff no codes were raised, or the override flag is set and every
raised code is 101; any other code blocks regardless of the flag. -/
theorem run_gate_iff_only_101_with_override (codes : List String) (override : Bool) :
    run_only_gate (validation_outcome_has_errors codes) codes override = true
      ↔ (codes = [] ∨ (override = true ∧ ∀ c ∈ codes, c = ("101"))) := by
  cases codes with
  | nil => simp [run_only_gate, validation_outcome_has_errors]
  | cons c cs =>
    simp [run_only_gate, validation_outcome_has_errors, List.all_eq_true, and_assoc]

/-- C8: on a row with non-blank title, body `"Lorem ipsum dolor"` trips the
placeholder check (code 112) and not the missing-body check (code 107); a
blank body trips 107 and never 112 — 112 is evaluated only on bodies that
are non-blank after trimming. -/
theorem placeholder_body_112_vs_107 (title : String) (h : pyStrip title ≠ ("")) :
    error112_fires ("Lorem ipsum dolor") = true
    ∧ error107_fires title ("Lorem ipsum dolor") = false
    ∧ error107_fires title ("") = true
    ∧ error112_fires ("") = false
    ∧ (∀ body, pyStrip body = ("") → error112_fires body = false) := by
  refine ⟨by decide, ?_, ?_, by decide, ?_⟩
  · have : (pyStrip ("Lorem ipsum dolor") == ("")) = false := by decide
    simp [error107_fires, this]
  · have ht : (pyStrip title != ("")) = true := by
      simpa using h
    simp [error107_fires, ht]
    decide
  · intro body hb
    simp [error112_fires, hb]

/-- C8 witness: the theorem applied at the concrete title `"T"`. -/
theorem placeholder_body_112_vs_107_witness :
    pyStrip ("T") ≠ ("") ∧ error112_fires ("Lorem ipsum dolor") = true :=
  ⟨by decide, (placeholder_body_112_vs_107 ("T") (by decide)).1⟩

/-- Flat-mapping constant-length blocks over `range n` yields `n * B`
elements. -/
lemma flatMap_range_const_length {alpha : Type} (g : Nat → List alpha) (B n : Nat)
    (hg : ∀ i, (g i).length = B) :
    ((List.range n).flatMap g).length = n * B := by
  rw [List.length_flatMap]
  have hrep : List.map (List.length ∘ g) (List.range n) = List.replicate n B := by
    apply List.eq_replicate_iff.mpr
    constructor
    · simp
    · intro x hx
      obtain ⟨i, _, hi⟩ := List.mem_map.mp hx
      rw [← hi, Function.comp_apply, hg]
  rw [hrep, List.sum_replicate, smul_eq_mul]

/-- The triple-loop shape always emits `n1 * n2 * n3` values. -/
lemma gridMap_length (n1 n2 n3 : Nat) (f : Nat → Nat → Nat → String) :
    (gridMap n1 n2 n3 f).length = n1 * n2 * n3 := by
  rw [gridMap, flatMap_range_const_length _ (n2 * n3) n1, mul_assoc]
  intro i
  rw [flatMap_range_const_length _ n3 n2]
  intro j
  simp

/-- Flattening `n` copies of a singleton gives `n` copies of its element. -/
lemma flatten_replicate_singleton {alpha : Type} (n : Nat) (v : alpha) :
    (List.replicate n [v]).flatten = List.replicate n v := by
  induction n with
  | zero => rfl
  | succ k ih => simp [List.replicate_succ, ih]


/-- C3: for every input value string and dimension sizes at least 1, the
broadcast list has exactly `n1 * n2 * n3` elements, in every branch
including the repeat/truncate repair. -/
theorem broadcast_values_length_eq_total (s field : String) (rownum n1 n2 n3 : Nat)
    (h1 : 1 ≤ n1) (h2 : 1 ≤ n2) (h3 : 1 ≤ n3) :
    ((broadcast_values s n1 n2 n3 field rownum).1).length = n1 * n2 * n3 := by
  rw [broadcast_values]
  generalize split_pipe s = vals
  rw [broadcastCore]
  by_cases h0 : vals.length = 0
  · rw [if_pos h0]
    exact List.length_replicate _ _
  rw [if_neg h0]
  by_cases hone : vals.length = 1
  · rw [if_pos hone]
    rw [List.length_flatten, List.map_replicate, hone, List.sum_replicate, smul_eq_mul,
      mul_one]
  rw [if_neg hone]
  by_cases htotal : vals.length = n1 * n2 * n3
  · rw [if_pos htotal]
    exact htotal
  rw [if_neg htotal]
  by_cases hn1 : vals.length = n1
  · rw [if_pos hn1]
    exact gridMap_length n1 n2 n3 _
  rw [if_neg hn1]
  by_cases hn2 : vals.length = n2
  · rw [if_pos hn2]
    exact gridMap_length n1 n2 n3 _
  rw [if_neg hn2]
  by_cases hn3 : vals.length = n3
  · rw [if_pos hn3]
    exact gridMap_length n1 n2 n3 _
  rw [if_neg hn3]
  by_cases h12 : vals.length = n1 * n2 ∧ 1 < n3
  · rw [if_pos h12]
    exact gridMap_length n1 n2 n3 _
  rw [if_neg h12]
  by_cases h13 : vals.length = n1 * n3 ∧ 1 < n2
  · rw [if_pos h13]
    exact gridMap_length n1 n2 n3 _
  rw [if_neg h13]
  by_cases h23 : vals.length = n2 * n3 ∧ 1 < n1
  · rw [if_pos h23]
    rw [flatMap_range_const_length _ (n2 * n3) n1, mul_assoc]
    intro i
    exact h23.1
  rw [if_neg h23]
  by_cases hlt : vals.length < n1 * n2 * n3
  · rw [if_pos hlt]
    rw [List.length_append, List.length_replicate]
    omega
  · rw [if_neg hlt]
    rw [List.length_take]
    omega

/-- C3 witness: the length theorem applied at a concrete mismatched input
(5 values against a 2 x 3 x 1 grid). -/
theorem broadcast_values_length_eq_total_witness :
    ((broadcast_values ("a|b|c|d|e") 2 3 1 ("f") 4).1).length = 2 * 3 * 1 :=
  broadcast_values_length_eq_total ("a|b|c|d|e") ("f") 4 2 3 1 (by decide) (by decide)
    (by decide)

/-- Indexing into a flat-map of constant-length blocks: position
`i * B + r` lands in block `i` at offset `r`. -/
lemma flatMap_range_getD {g : Nat → List String} {B : Nat}
    (hg : ∀ i, (g i).length = B) :
    ∀ (n i r : Nat), i < n → r < B →
      ((List.range n).flatMap g).getD (i * B + r) ("") = (g i).getD r ("") := by
  intro n
  induction n with
  | zero =>
    intro i r hi _
    exact absurd hi (Nat.not_lt_zero i)
  | succ m ih =>
    intro i r hi hr
    rw [List.range_succ, List.flatMap_append]
    by_cases him : i < m
    · have hlt : i * B + r < ((List.range m).flatMap g).length := by
        rw [flatMap_range_const_length g B m hg]
        have hmul : (i + 1) * B ≤ m * B := Nat.mul_le_mul_right B him
        calc i * B + r < i * B + B := by omega
          _ = (i + 1) * B := by ring
          _ ≤ m * B := hmul
      rw [List.getD_append _ _ _ _ hlt]
      exact ih i r him hr
    · have hieq : i = m := by omega
      subst hieq
      have hlen : ((List.range i).flatMap g).length = i * B :=
        flatMap_range_const_length g B i hg
      have hle : ((List.range i).flatMap g).length ≤ i * B + r := by
        rw [hlen]
        exact Nat.le_add_right _ _
      rw [List.getD_append_right _ _ _ _ hle, hlen, Nat.add_sub_cancel_left]
      simp

/-- Position `(i*n2 + j)*n3 + k` of the triple-loop grid holds `f i j k`. -/
lemma gridMap_getD (n1 n2 n3 : Nat) (f : Nat → Nat → Nat → String) (i j k : Nat)
    (hi : i < n1) (hj : j < n2) (hk : k < n3) :
    (gridMap n1 n2 n3 f).getD ((i * n2 + j) * n3 + k) ("") = f i j k := by
  have hidx : (i * n2 + j) * n3 + k = i * (n2 * n3) + (j * n3 + k) := by ring
  rw [gridMap, hidx]
  have hinner : ∀ a,
      ((List.range n2).flatMap (fun b => (List.range n3).map (f a b))).length = n2 * n3 := by
    intro a
    rw [flatMap_range_const_length _ n3 n2]
    intro b
    simp
  have hjk : j * n3 + k < n2 * n3 := by
    have hmul : (j + 1) * n3 ≤ n2 * n3 := Nat.mul_le_mul_right n3 hj
    calc j * n3 + k < j * n3 + n3 := by omega
      _ = (j + 1) * n3 := by ring
      _ ≤ n2 * n3 := hmul
  rw [flatMap_range_getD hinner n1 i (j * n3 + k) hi hjk]
  rw [flatMap_range_getD (fun b => by simp) n2 j k hj hk]
  rw [List.getD_eq_getElem _ _ (by simpa using hk)]
  simp

/-- C4: a pipe-list of length 1 replicates to every variant slot; a list of
exactly total length is returned unchanged; a list of length `n1` (with `n1`
different from the earlier-precedence shapes 1 and total) varies only along
dimension 1: slot `(i, j, k)` in dimension-1-major order holds source value
`i`. -/
theorem broadcast_values_shape_cases (s field : String) (rownum n1 n2 n3 : Nat)
    (h1 : 1 ≤ n1) (h2 : 1 ≤ n2) (h3 : 1 ≤ n3) :
    ((split_pipe s).length = 1 →
      (broadcast_values s n1 n2 n3 field rownum).1
        = List.replicate (n1 * n2 * n3) ((split_pipe s).headD ("")))
    ∧ ((split_pipe s).length = n1 * n2 * n3 →
      (broadcast_values s n1 n2 n3 field rownum).1 = split_pipe s)
    ∧ ((split_pipe s).length = n1 → n1 ≠ 1 → n1 ≠ n1 * n2 * n3 →
      ∀ i j k, i < n1 → j < n2 → k < n3 →
        ((broadcast_values s n1 n2 n3 field rownum).1).getD ((i * n2 + j) * n3 + k) ("")
          = (split_pipe s).getD i ("")) := by
  have htot : 1 ≤ n1 * n2 * n3 := by
    simpa using Nat.mul_le_mul (Nat.mul_le_mul h1 h2) h3
  refine ⟨?_, ?_, ?_⟩
  · intro hone
    rw [broadcast_values, broadcastCore]
    rw [if_neg (by omega), if_pos hone]
    obtain ⟨v, hv⟩ := List.length_eq_one.mp hone
    rw [hv, flatten_replicate_singleton]
    rfl
  · intro ht
    rw [broadcast_values, broadcastCore]
    rw [if_neg (by omega)]
    by_cases hone : (split_pipe s).length = 1
    · rw [if_pos hone]
      have ht1 : n1 * n2 * n3 = 1 := by omega
      obtain ⟨v, hv⟩ := List.length_eq_one.mp hone
      rw [ht1, hv, flatten_replicate_singleton]
      rfl
    · rw [if_neg hone, if_pos ht]
  · intro hn1 hne1 hnet i j k hi hj hk
    rw [broadcast_values, broadcastCore]
    rw [if_neg (by omega), if_neg (by omega), if_neg (by omega), if_pos hn1]
    exact gridMap_getD n1 n2 n3 _ i j k hi hj hk

/-- C4 witness: the `n1` shape applied at `"a|b"` against a 2 x 2 x 1 grid,
slot (1, 0, 0). -/
theorem broadcast_values_shape_cases_witness :
    ((broadcast_values ("a|b") 2 2 1 ("f") 3).1).getD 2 ("") = ("b") := by
  have h := (broadcast_values_shape_cases ("a|b") ("f") 3 2 2 1 (by decide) (by decide)
    (by decide)).2.2 (by decide) (by decide) (by decide) 1 0 0 (by decide) (by decide)
    (by decide)
  have h2 : (split_pipe ("a|b")).getD 1 ("") = ("b") := by decide
  exact h.trans h2

/-- Folding `max` only grows, and bounds every element. -/
lemma foldl_max_bounds (l : List Nat) :
    ∀ a : Nat, a ≤ l.foldl max a ∧ ∀ x ∈ l, x ≤ l.foldl max a := by
  induction l with
  | nil =>
    intro a
    exact ⟨le_refl a, by simp⟩
  | cons b t ih =>
    intro a
    rw [List.foldl_cons]
    have h := ih (max a b)
    refine ⟨le_trans (le_max_left a b) h.1, ?_⟩
    intro x hx
    rcases List.mem_cons.mp hx with hxb | hxt
    · rw [hxb]
      exact le_trans (le_max_right a b) h.1
    · exact h.2 x hxt

/-- The fold result is the seed or one of the elements. -/
lemma foldl_max_mem (l : List Nat) :
    ∀ a : Nat, l.foldl max a = a ∨ l.foldl max a ∈ l := by
  induction l with
  | nil =>
    intro a
    exact Or.inl rfl
  | cons b t ih =>
    intro a
    rcases ih (max a b) with h | h
    · rcases max_choice a b with hm | hm
      · exact Or.inl (by rw [List.foldl_cons, h, hm])
      · exact Or.inr (by rw [List.foldl_cons, h, hm]; exact List.mem_cons_self b t)
    · exact Or.inr (List.mem_cons_of_mem b h)

/-- C6: the SKU seed from a prior export is 0 with no export or no
`Variant SKU` column; it is the 6-digit base of the first acceptable cell
when that cell parses; otherwise it bounds (and is attained by, when
non-zero) the parsable bases of the whole column; and the first allocated
base of the build is `seed + 1` when `seed > 0`, else 100001. -/
theorem sku_seed_from_prev_export :
    load_prev_highest_base none = 0
    ∧ load_prev_highest_base (some none) = 0
    ∧ (∀ cells c b, firstSkuCell cells = some c → extract_base_6 c = some b →
        load_prev_highest_base (some (some cells)) = b)
    ∧ (∀ cells, (∀ c, firstSkuCell cells = some c → extract_base_6 c = none) →
        (∀ x ∈ parsableBases cells, x ≤ load_prev_highest_base (some (some cells)))
        ∧ (load_prev_highest_base (some (some cells)) = 0
           ∨ load_prev_highest_base (some (some cells)) ∈ parsableBases cells))
    ∧ (∀ seed : Nat, 0 < seed → initialNextBase seed = seed + 1)
    ∧ initialNextBase 0 = 100001
    ∧ (∀ seed : Nat, (buildInitState seed none).nextBase = initialNextBase seed) := by
  refine ⟨rfl, rfl, ?_, ?_, ?_, rfl, ?_⟩
  · intro cells c b hc hb
    simp [load_prev_highest_base, hc, hb]
  · intro cells hnone
    have hload : load_prev_highest_base (some (some cells)) = fallbackMaxBase cells := by
      rw [load_prev_highest_base]
      cases hc : firstSkuCell cells with
      | none => rfl
      | some c =>
        simp [hnone c hc]
    rw [hload, fallbackMaxBase]
    refine ⟨fun x hx => (foldl_max_bounds (parsableBases cells) 0).2 x hx, ?_⟩
    exact foldl_max_mem (parsableBases cells) 0
  · intro seed hseed
    rw [initialNextBase, if_pos (by omega)]
  · intro seed
    rfl

/-- C6 witness: the first-cell conjunct applied at a concrete column whose
first non-blank cell carries an Excel apostrophe artifact. -/
theorem sku_seed_from_prev_export_witness :
    load_prev_highest_base (some (some [("  "), ("'110374-01"), ("999999")])) = 110374 :=
  sku_seed_from_prev_export.2.2.1 [("  "), ("'110374-01"), ("999999")] ("110374-01") 110374
    (by decide) (by decide)

/-- The broadcast value list does not depend on the reported row number
(only the warning text does). -/
lemma broadcastCore_fst_rownum (vals : List String) (n1 n2 n3 : Nat) (field : String)
    (r1 r2 : Nat) :
    (broadcastCore vals n1 n2 n3 field r1).1 = (broadcastCore vals n1 n2 n3 field r2).1 := by
  rw [broadcastCore, broadcastCore]
  by_cases h0 : vals.length = 0
  · rw [if_pos h0, if_pos h0]
  rw [if_neg h0, if_neg h0]
  by_cases h1 : vals.length = 1
  · rw [if_pos h1, if_pos h1]
  rw [if_neg h1, if_neg h1]
  by_cases h2 : vals.length = n1 * n2 * n3
  · rw [if_pos h2, if_pos h2]
  rw [if_neg h2, if_neg h2]
  by_cases h3 : vals.length = n1
  · rw [if_pos h3, if_pos h3]
  rw [if_neg h3, if_neg h3]
  by_cases h4 : vals.length = n2
  · rw [if_pos h4, if_pos h4]
  rw [if_neg h4, if_neg h4]
  by_cases h5 : vals.length = n3
  · rw [if_pos h5, if_pos h5]
  rw [if_neg h5, if_neg h5]
  by_cases h6 : vals.length = n1 * n2 ∧ 1 < n3
  · rw [if_pos h6, if_pos h6]
  rw [if_neg h6, if_neg h6]
  by_cases h7 : vals.length = n1 * n3 ∧ 1 < n2
  · rw [if_pos h7, if_pos h7]
  rw [if_neg h7, if_neg h7]
  by_cases h8 : vals.length = n2 * n3 ∧ 1 < n1
  · rw [if_pos h8, if_pos h8]
  rw [if_neg h8, if_neg h8]
  by_cases h9 : vals.length < n1 * n2 * n3
  · rw [if_pos h9, if_pos h9]
  · rw [if_neg h9, if_neg h9]

/-- Row-number independence for `broadcast_values`. -/
lemma broadcast_values_fst_rownum (s : String) (n1 n2 n3 : Nat) (field : String)
    (r1 r2 : Nat) :
    (broadcast_values s n1 n2 n3 field r1).1 = (broadcast_values s n1 n2 n3 field r2).1 :=
  broadcastCore_fst_rownum _ n1 n2 n3 field r1 r2

/-- Row-number independence for the respect-branch SKU broadcast. -/
lemma productSkuBroadcast_fst_row (e1 e2 : Nat) (r : Row) :
    (productSkuBroadcast e1 r).1 = (productSkuBroadcast e2 r).1 :=
  broadcast_values_fst_rownum _ _ _ _ _ e1 e2

/-- Row-number independence for the blank-slot index list. -/
lemma productNeedFill_row (e1 e2 : Nat) (r : Row) :
    productNeedFill e1 r = productNeedFill e2 r := by
  rw [productNeedFill, productNeedFill, productSkuBroadcast_fst_row e1 e2]

/-- Row-number independence for the assigned SKUs. -/
lemma productAssignedSkus_row (respect : Bool) (b : Nat) (e1 e2 : Nat) (r : Row) :
    productAssignedSkus respect b e1 r = productAssignedSkus respect b e2 r := by
  rw [productAssignedSkus, productAssignedSkus, productSkuBroadcast_fst_row e1 e2,
    productNeedFill_row e1 e2]

/-- Row-number independence for the allocator step. -/
lemma productBaseStep_row (respect : Bool) (e1 e2 : Nat) (r : Row) :
    productBaseStep respect e1 r = productBaseStep respect e2 r := by
  rw [productBaseStep, productBaseStep, productNeedFill_row e1 e2]

/-- Row-number independence for the written-back cell. -/
lemma productCell_row (respect : Bool) (b : Nat) (e1 e2 : Nat) (r : Row) :
    productCell respect b e1 r = productCell respect b e2 r := by
  rw [productCell, productCell, productAssignedSkus_row respect b e1 e2]

/-- `processProduct` on an over-cap product, spelled out. -/
lemma processProduct_cap (probe : String → Bool × String) (respect : Bool)
    (st : BuildState) (r : Row) (h : 300 < productVariantCount r) :
    processProduct probe respect st r =
      { idx := st.idx + 1, nextBase := st.nextBase,
        usedHandles := (productHandlePair st.usedHandles (st.idx + 2) r).2,
        issues := st.issues ++ productPreIssues (st.idx + 2) r ++
          [overflowIssue (st.idx + 2) (productVariantCount r)],
        rows := st.rows, imageResults := st.imageResults,
        dfSkuCells := st.dfSkuCells ++ [rowGet r ("Variant SKU")] } := by
  rw [processProduct, if_pos h]

/-- `processProduct` on an in-cap product, spelled out. -/
lemma processProduct_ok (probe : String → Bool × String) (respect : Bool)
    (st : BuildState) (r : Row) (h : ¬300 < productVariantCount r) :
    processProduct probe respect st r =
      { idx := st.idx + 1,
        nextBase := st.nextBase + productBaseStep respect (st.idx + 2) r,
        usedHandles := (productHandlePair st.usedHandles (st.idx + 2) r).2,
        issues := st.issues ++ productPreIssues (st.idx + 2) r ++
          productBroadcastIssues (st.idx + 2) r ++ productSkuIssues respect (st.idx + 2) r ++
          productPriceIssues (st.idx + 2) r,
        rows := st.rows ++ productRows respect st.nextBase (st.idx + 2)
          (productHandlePair st.usedHandles (st.idx + 2) r).1 r,
        imageResults := st.imageResults ++
          productImageResults probe (productHandlePair st.usedHandles (st.idx + 2) r).1 r,
        dfSkuCells := st.dfSkuCells ++ [productCell respect st.nextBase (st.idx + 2) r] } := by
  rw [processProduct, if_neg h]

/-- The loop advances the row index once per product, rejected or not. -/
lemma foldProducts_idx (probe : String → Bool × String) (respect : Bool) :
    ∀ (ps : List Row) (st : BuildState),
      (foldProducts probe respect st ps).idx = st.idx + ps.length := by
  intro ps
  induction ps with
  | nil =>
    intro st
    rw [foldProducts]
    rfl
  | cons r rs ih =>
    intro st
    rw [foldProducts, ih]
    by_cases h : 300 < productVariantCount r
    · rw [processProduct_cap probe respect st r h]
      simp
      omega
    · rw [processProduct_ok probe respect st r h]
      simp
      omega

/-- The loop advances the allocator by `stepsFrom`. -/
lemma foldProducts_nextBase (probe : String → Bool × String) (respect : Bool) :
    ∀ (ps : List Row) (st : BuildState),
      (foldProducts probe respect st ps).nextBase = st.nextBase + stepsFrom respect ps := by
  intro ps
  induction ps with
  | nil =>
    intro st
    rw [foldProducts, stepsFrom]
    rfl
  | cons r rs ih =>
    intro st
    rw [foldProducts, ih, stepsFrom]
    by_cases h : 300 < productVariantCount r
    · rw [processProduct_cap probe respect st r h, if_pos h]
      simp
    · rw [processProduct_ok probe respect st r h, if_neg h,
        productBaseStep_row respect (st.idx + 2) 2]
      simp [Nat.add_assoc, Nat.add_comm, Nat.add_left_comm]

/-- The loop appends exactly the `cellsFrom` trace to the SKU column. -/
lemma foldProducts_dfSkuCells (probe : String → Bool × String) (respect : Bool) :
    ∀ (ps : List Row) (st : BuildState),
      (foldProducts probe respect st ps).dfSkuCells
        = st.dfSkuCells ++ cellsFrom respect st.nextBase ps := by
  intro ps
  induction ps with
  | nil =>
    intro st
    rw [foldProducts, cellsFrom]
    simp
  | cons r rs ih =>
    intro st
    rw [foldProducts, ih, cellsFrom]
    by_cases h : 300 < productVariantCount r
    · rw [processProduct_cap probe respect st r h, if_pos h, if_pos h]
      simp
    · rw [processProduct_ok probe respect st r h, if_neg h, if_neg h,
        productBaseStep_row respect 2 (st.idx + 2),
        productCell_row respect st.nextBase 2 (st.idx + 2)]
      simp

/-- In the default mode the allocator always advances by one. -/
lemma productBaseStep_default (e : Nat) (r : Row) : productBaseStep false e r = 1 := by
  rw [productBaseStep, productRespectBranch]
  simp

/-- In the default mode the written-back cell is the freshly formatted SKU
list for the product's variant count. -/
lemma productCell_default (b e : Nat) (r : Row) :
    productCell false b e r = defaultSkuCell b (productVariantCount r) := by
  rw [productCell, productAssignedSkus, productRespectBranch, defaultSkuCell]
  simp

/-- With every product under the cap and the default mode, the cell trace is
one fresh consecutive base per product, formatted by `defaultSkuCell`. -/
lemma cellsFrom_default :
    ∀ (ps : List Row) (b : Nat), (∀ r ∈ ps, productVariantCount r ≤ 300) →
      cellsFrom false b ps = (List.range ps.length).map
        (fun i => defaultSkuCell (b + i) (productVariantCount (ps.getD i []))) := by
  intro ps
  induction ps with
  | nil =>
    intro b _
    rfl
  | cons r rs ih =>
    intro b h
    have hr : ¬300 < productVariantCount r := by
      have := h r (List.mem_cons_self r rs)
      omega
    rw [cellsFrom, if_neg hr, if_neg hr, productBaseStep_default, productCell_default,
      ih (b + 1) (fun x hx => h x (List.mem_cons_of_mem r hx))]
    rw [List.length_cons, List.range_succ_eq_map, List.map_cons, List.map_map]
    refine congrArg₂ _ (by simp) ?_
    apply List.map_congr_left
    intro a _
    rw [Function.comp_apply, List.getD_cons_succ]
    have harith : b + (a + 1) = b + 1 + a := by omega
    rw [harith]

/-- C2: in the default (non-respect) mode, with every product within the
variant cap, product `i` (0-based input order) receives the fresh base
`start + i` — the bases are strictly increasing, one per product — and its
written-back cell is the bare `{base:06d}` for one variant, or
`{base:06d}-{01..n:02d}` for `n > 1` variants (`defaultSkuCell`). -/
theorem sku_bases_fresh_and_increasing (probe : String → Bool × String) (ps : List Row)
    (seed : Nat) (h : ∀ r ∈ ps, productVariantCount r ≤ 300) :
    (build_shopify_rows probe ps seed false none).dfSkuCells
      = (List.range ps.length).map
          (fun i => defaultSkuCell (initialNextBase seed + i)
            (productVariantCount (ps.getD i [])))
    ∧ List.Pairwise (fun a b => a < b)
        ((List.range ps.length).map (fun i => initialNextBase seed + i)) := by
  constructor
  · show (foldProducts probe false (buildInitState seed none) ps).dfSkuCells = _
    rw [foldProducts_dfSkuCells]
    show [] ++ cellsFrom false (initialNextBase seed) ps = _
    rw [List.nil_append, cellsFrom_default ps (initialNextBase seed) h]
  · refine List.Pairwise.map _ ?_ (List.pairwise_lt_range ps.length)
    intro a b hab
    omega

/-- C2 witness: a one-variant product then a two-variant product, from seed
0: bases 100001 then 100002, bare SKU then 01/02 suffixes. -/
theorem sku_bases_fresh_and_increasing_witness :
    (build_shopify_rows check_image_url [singleVariantDemoRow, twoVariantDemoRow] 0
      false none).dfSkuCells = [("100001"), ("100002-01|100002-02")] := by
  rw [(sku_bases_fresh_and_increasing check_image_url
    [singleVariantDemoRow, twoVariantDemoRow] 0 (by decide)).1]
  decide

/-- The allocator advance splits over list append. -/
lemma stepsFrom_append (respect : Bool) :
    ∀ (xs ys : List Row),
      stepsFrom respect (xs ++ ys) = stepsFrom respect xs + stepsFrom respect ys := by
  intro xs ys
  induction xs with
  | nil =>
    rw [List.nil_append, stepsFrom]
    omega
  | cons r rs ih =>
    rw [List.cons_append, stepsFrom, stepsFrom, ih]
    omega

/-- The cell trace splits over list append, the second part starting at the
advanced base. -/
lemma cellsFrom_append (respect : Bool) :
    ∀ (xs ys : List Row) (b : Nat),
      cellsFrom respect b (xs ++ ys)
        = cellsFrom respect b xs ++ cellsFrom respect (b + stepsFrom respect xs) ys := by
  intro xs
  induction xs with
  | nil =>
    intro ys b
    rw [List.nil_append, cellsFrom, stepsFrom]
    rfl
  | cons r rs ih =>
    intro ys b
    rw [List.cons_append, cellsFrom, cellsFrom, ih, stepsFrom, List.cons_append]
    have harith : b + ((if 300 < productVariantCount r then 0
        else productBaseStep respect 2 r) + stepsFrom respect rs)
      = b + (if 300 < productVariantCount r then 0 else productBaseStep respect 2 r)
        + stepsFrom respect rs := by omega
    rw [harith]

/-- One cell per product. -/
lemma cellsFrom_length (respect : Bool) :
    ∀ (ps : List Row) (b : Nat), (cellsFrom respect b ps).length = ps.length := by
  intro ps
  induction ps with
  | nil =>
    intro b
    rfl
  | cons r rs ih =>
    intro b
    rw [cellsFrom, List.length_cons, List.length_cons, ih]

/-- C10: a product rejected for variant overflow consumes no allocator
increment: dropping it from the input leaves every other product's written
SKU cell unchanged (the full run's cells are the reduced run's cells with
the rejected row's original cell spliced back in), and the final
`highest_after` is identical. -/
theorem overflow_leaves_sku_counter_unchanged (probe : String → Bool × String)
    (respect : Bool) (seed : Nat) (ps1 ps2 : List Row) (p : Row)
    (h : 300 < productVariantCount p) :
    (build_shopify_rows probe (ps1 ++ p :: ps2) seed respect none).dfSkuCells
      = (build_shopify_rows probe (ps1 ++ ps2) seed respect none).dfSkuCells.take ps1.length
        ++ rowGet p ("Variant SKU")
          :: (build_shopify_rows probe (ps1 ++ ps2) seed respect none).dfSkuCells.drop
            ps1.length
    ∧ (build_shopify_rows probe (ps1 ++ p :: ps2) seed respect none).highestAfter
      = (build_shopify_rows probe (ps1 ++ ps2) seed respect none).highestAfter := by
  have hwithout :
      (build_shopify_rows probe (ps1 ++ ps2) seed respect none).dfSkuCells
        = cellsFrom respect (initialNextBase seed) ps1
          ++ cellsFrom respect (initialNextBase seed + stepsFrom respect ps1) ps2 := by
    show (foldProducts probe respect (buildInitState seed none) (ps1 ++ ps2)).dfSkuCells = _
    rw [foldProducts_dfSkuCells]
    show [] ++ cellsFrom respect (initialNextBase seed) (ps1 ++ ps2) = _
    rw [List.nil_append, cellsFrom_append]
  have hfull :
      (build_shopify_rows probe (ps1 ++ p :: ps2) seed respect none).dfSkuCells
        = cellsFrom respect (initialNextBase seed) ps1
          ++ rowGet p ("Variant SKU")
            :: cellsFrom respect (initialNextBase seed + stepsFrom respect ps1) ps2 := by
    show (foldProducts probe respect (buildInitState seed none) (ps1 ++ p :: ps2)).dfSkuCells
      = _
    rw [foldProducts_dfSkuCells]
    show [] ++ cellsFrom respect (initialNextBase seed) (ps1 ++ p :: ps2) = _
    rw [List.nil_append, cellsFrom_append, cellsFrom, if_pos h, if_pos h]
    rw [Nat.add_zero]
  constructor
  · rw [hfull, hwithout]
    rw [List.take_left' (cellsFrom_length respect ps1 (initialNextBase seed)),
      List.drop_left' (cellsFrom_length respect ps1 (initialNextBase seed))]
  · show (if 0 < (foldProducts probe respect (buildInitState seed none)
        (ps1 ++ p :: ps2)).nextBase then _ else _)
      = (if 0 < (foldProducts probe respect (buildInitState seed none)
        (ps1 ++ ps2)).nextBase then _ else _)
    rw [foldProducts_nextBase, foldProducts_nextBase]
    rw [show stepsFrom respect (ps1 ++ p :: ps2) = stepsFrom respect (ps1 ++ ps2) from ?_]
    rw [stepsFrom_append, stepsFrom, if_pos h, stepsFrom_append]
    omega

set_option maxRecDepth 8000 in
set_option maxHeartbeats 1600000 in
/-- C10 witness: rejecting a 301-combo product between two small products
leaves the surrounding cells and the final highest base unchanged. -/
theorem overflow_leaves_sku_counter_unchanged_witness :
    (build_shopify_rows check_image_url
        [singleVariantDemoRow, overflowDemoRow, twoVariantDemoRow] 0 false none).dfSkuCells
      = (build_shopify_rows check_image_url [singleVariantDemoRow, twoVariantDemoRow] 0
          false none).dfSkuCells.take 1
        ++ rowGet overflowDemoRow ("Variant SKU")
          :: (build_shopify_rows check_image_url [singleVariantDemoRow, twoVariantDemoRow]
            0 false none).dfSkuCells.drop 1 :=
  (overflow_leaves_sku_counter_unchanged check_image_url false 0 [singleVariantDemoRow]
    [twoVariantDemoRow] overflowDemoRow (by decide)).1

/-- The loop over an appended list is the loop over the first part continued
over the second. -/
lemma foldProducts_append (probe : String → Bool × String) (respect : Bool) :
    ∀ (xs ys : List Row) (st : BuildState),
      foldProducts probe respect st (xs ++ ys)
        = foldProducts probe respect (foldProducts probe respect st xs) ys := by
  intro xs
  induction xs with
  | nil =>
    intro ys st
    rw [List.nil_append, foldProducts]
  | cons r rs ih =>
    intro ys st
    rw [List.cons_append, foldProducts, foldProducts, ih]

/-- C5: a product whose variant grid exceeds 300 is rejected alone: the loop
iteration for it emits no output rows, probes no images, leaves the
allocator untouched, and appends exactly its per-row pre-check issues plus
the `Too many variants` error tied to its excel row; the remaining input is
then processed from that state exactly as the loop normally would. -/
theorem variant_overflow_rejects_product_only (probe : String → Bool × String)
    (respect : Bool) (seed : Nat) (ps1 ps2 : List Row) (p : Row)
    (h : 300 < productVariantCount p) :
    (processProduct probe respect
        (foldProducts probe respect (buildInitState seed none) ps1) p).rows
      = (foldProducts probe respect (buildInitState seed none) ps1).rows
    ∧ (processProduct probe respect
        (foldProducts probe respect (buildInitState seed none) ps1) p).imageResults
      = (foldProducts probe respect (buildInitState seed none) ps1).imageResults
    ∧ (processProduct probe respect
        (foldProducts probe respect (buildInitState seed none) ps1) p).nextBase
      = (foldProducts probe respect (buildInitState seed none) ps1).nextBase
    ∧ (processProduct probe respect
        (foldProducts probe respect (buildInitState seed none) ps1) p).issues
      = (foldProducts probe respect (buildInitState seed none) ps1).issues
        ++ productPreIssues (ps1.length + 2) p
        ++ [overflowIssue (ps1.length + 2) (productVariantCount p)]
    ∧ (build_shopify_rows probe (ps1 ++ p :: ps2) seed respect none).rows
      = (foldProducts probe respect
          (processProduct probe respect
            (foldProducts probe respect (buildInitState seed none) ps1) p) ps2).rows := by
  have hidx : (foldProducts probe respect (buildInitState seed none) ps1).idx
      = ps1.length := by
    rw [foldProducts_idx]
    show 0 + ps1.length = ps1.length
    omega
  rw [processProduct_cap probe respect _ p h, hidx]
  refine ⟨rfl, rfl, rfl, rfl, ?_⟩
  show (foldProducts probe respect (buildInitState seed none) (ps1 ++ p :: ps2)).rows = _
  rw [foldProducts_append, foldProducts]
  rw [processProduct_cap probe respect _ p h, hidx]

set_option maxRecDepth 8000 in
set_option maxHeartbeats 1600000 in
/-- C5 witness: the overflow product after one small product emits no rows. -/
theorem variant_overflow_rejects_product_only_witness :
    (processProduct check_image_url false
        (foldProducts check_image_url false (buildInitState 0 none) [singleVariantDemoRow])
        overflowDemoRow).rows
      = (foldProducts check_image_url false (buildInitState 0 none)
          [singleVariantDemoRow]).rows :=
  (variant_overflow_rejects_product_only check_image_url false 0 [singleVariantDemoRow]
    [] overflowDemoRow (by decide)).1

/-- C1 counterexample: for a product with two variants and two images, the
emitted rows are [variant row (SKU -01, image 1), image-only row (position
2, blank SKU and Title), variant row (SKU -02)] — the extra image row sits
*between* two variant rows of the same product (same Handle), not after
them. -/
theorem image_row_between_variant_rows :
    (build_shopify_rows check_image_url [twoVariantDemoRow] 0 false none).rows.length = 3
    ∧ rowGet ((build_shopify_rows check_image_url [twoVariantDemoRow] 0 false
        none).rows.getD 0 []) ("Variant SKU") = ("100001-01")
    ∧ rowGet ((build_shopify_rows check_image_url [twoVariantDemoRow] 0 false
        none).rows.getD 1 []) ("Variant SKU") = ("")
    ∧ rowGet ((build_shopify_rows check_image_url [twoVariantDemoRow] 0 false
        none).rows.getD 1 []) ("Title") = ("")
    ∧ rowGet ((build_shopify_rows check_image_url [twoVariantDemoRow] 0 false
        none).rows.getD 1 []) ("Image Position") = ("2")
    ∧ rowGet ((build_shopify_rows check_image_url [twoVariantDemoRow] 0 false
        none).rows.getD 2 []) ("Variant SKU") = ("100001-02")
    ∧ rowGet ((build_shopify_rows check_image_url [twoVariantDemoRow] 0 false
        none).rows.getD 0 []) ("Handle") = ("tee")
    ∧ rowGet ((build_shopify_rows check_image_url [twoVariantDemoRow] 0 false
        none).rows.getD 1 []) ("Handle") = ("tee")
    ∧ rowGet ((build_shopify_rows check_image_url [twoVariantDemoRow] 0 false
        none).rows.getD 2 []) ("Handle") = ("tee") := by
  decide

/-- The option-1 value list is never empty (Default Title fallbacks). -/
lemma productO1Vals_ne_nil (r : Row) : productO1Vals r ≠ [] := by
  simp only [productO1Vals]
  split_ifs with h1 h2
  · simp
  · simp
  · exact h2

/-- The effective option-2 list is never empty. -/
lemma productO2List_ne_nil (r : Row) : productO2List r ≠ [] := by
  simp only [productO2List]
  split_ifs with h
  · exact h.2
  · simp

/-- The effective option-3 list is never empty. -/
lemma productO3List_ne_nil (r : Row) : productO3List r ≠ [] := by
  simp only [productO3List]
  split_ifs with h
  · exact h.2
  · simp

/-- The combo list is never empty. -/
lemma productCombos_ne_nil (r : Row) : productCombos r ≠ [] := by
  obtain ⟨a, ha⟩ := List.exists_mem_of_ne_nil _ (productO1Vals_ne_nil r)
  obtain ⟨b, hb⟩ := List.exists_mem_of_ne_nil _ (productO2List_ne_nil r)
  obtain ⟨c, hc⟩ := List.exists_mem_of_ne_nil _ (productO3List_ne_nil r)
  have hmem : (a, b, c) ∈ productCombos r := by
    rw [productCombos]
    exact List.mem_flatMap.mpr ⟨a, ha,
      List.mem_flatMap.mpr ⟨b, hb, List.mem_map.mpr ⟨c, hc, rfl⟩⟩⟩
  exact List.ne_nil_of_mem hmem

/-- After the first variant row the loop emits plain base rows. -/
lemma assembleRows_not_first (mkRow : Nat → (String × String × String) → Row)
    (pairs : List (String × String)) (extra : List Row) :
    ∀ (cs : List (String × String × String)) (i : Nat),
      assembleRows mkRow pairs extra i false cs = enumMapFrom mkRow i cs := by
  intro cs
  induction cs with
  | nil =>
    intro i
    rfl
  | cons c cs2 ih =>
    intro i
    simp only [assembleRows]
    rw [if_neg (by simp), ih]
    rfl

/-- With at least one image, the emitted rows are: first variant row with
the image-1 fields appended, then the extra image rows, then the remaining
plain variant rows. -/
lemma assembleRows_first_with_images (mkRow : Nat → (String × String × String) → Row)
    (pairs : List (String × String)) (extra : List Row)
    (c : String × String × String) (cs : List (String × String × String))
    (h : pairs ≠ []) :
    assembleRows mkRow pairs extra 0 true (c :: cs)
      = (mkRow 0 c ++
          [(("Image Src"), (pairs.headD ((""), (""))).1),
           (("Image Position"), ("1")),
           (("Image Alt Text"), (pairs.headD ((""), (""))).2)])
        :: (extra ++ enumMapFrom mkRow 1 cs) := by
  simp only [assembleRows]
  rw [if_pos ⟨trivial, h⟩, assembleRows_not_first]

/-- The extra image row, written out: all Shopify columns blank except
Handle and the three image fields. -/
lemma mkExtraImageRow_eq (handle u : String) (pos : Nat) (alt : String) :
    mkExtraImageRow handle u pos alt =
      [(("Handle"), handle), (("Title"), ("")), (("Body (HTML)"), ("")),
       (("Vendor"), ("")), (("Type"), ("")), (("Tags"), ("")), (("Published"), ("")),
       (("Option1 Name"), ("")), (("Option1 Value"), ("")), (("Option2 Name"), ("")),
       (("Option2 Value"), ("")), (("Option3 Name"), ("")), (("Option3 Value"), ("")),
       (("Variant SKU"), ("")), (("Variant Grams"), ("")),
       (("Variant Inventory Tracker"), ("")), (("Variant Inventory Qty"), ("")),
       (("Variant Inventory Policy"), ("")), (("Variant Fulfillment Service"), ("")),
       (("Variant Price"), ("")), (("Variant Compare At Price"), ("")),
       (("Variant Requires Shipping"), ("")), (("Variant Taxable"), ("")),
       (("Variant Barcode"), ("")), (("Image Src"), u),
       (("Image Position"), toString pos), (("Image Alt Text"), alt),
       (("Gift Card"), ("")), (("SEO Title"), ("")), (("SEO Description"), ("")),
       (("Status"), ("")), (("Variant Weight Unit"), (""))] := by
  rfl

/-- Every column of an extra image row other than Handle and the image
fields is blank. -/
lemma rowGet_mkExtraImageRow_blank (handle u : String) (pos : Nat) (alt : String) :
    ∀ k ∈ SHOPIFY_HEADERS, k ≠ ("Handle") → k ≠ ("Image Src") →
      k ≠ ("Image Position") → k ≠ ("Image Alt Text") →
      rowGet (mkExtraImageRow handle u pos alt) k = ("") := by
  intro k hk h1 h2 h3 h4
  rw [mkExtraImageRow_eq]
  rw [SHOPIFY_HEADERS] at hk
  fin_cases hk <;>
    first
      | rfl
      | exact absurd rfl h1
      | exact absurd rfl h2
      | exact absurd rfl h3
      | exact absurd rfl h4

/-- The positions of the extra image rows are 2, 3, ..., imageCount. -/
lemma productExtraImageRows_positions (handle : String) (r : Row)
    (h : productImagePairs r ≠ []) :
    (productExtraImageRows handle r).map (fun row => rowGet row ("Image Position"))
      = (List.range ((productImagePairs r).length - 1)).map (fun k => toString (k + 2)) := by
  rw [productExtraImageRows, if_pos h, List.map_map]
  have hfun : ∀ p ∈ ((productImagePairs r).drop 1).enum,
      ((fun row => rowGet row ("Image Position")) ∘
        (fun p : Nat × (String × String) =>
          mkExtraImageRow handle p.2.1 (p.1 + 2) p.2.2)) p = toString (p.1 + 2) := by
    intro p _
    rw [Function.comp_apply, mkExtraImageRow_eq]
    rfl
  rw [List.map_congr_left hfun]
  rw [show (fun p : Nat × (String × String) => toString (p.1 + 2))
      = ((fun k => toString (k + 2)) ∘ Prod.fst) from rfl]
  rw [← List.map_map, List.enum_map_fst, List.length_drop]

/-- C1 (amended): for an in-cap product with at least two images, the loop
emits the first variant row (with the image-1 fields), then immediately the
extra image rows — positions 2..imageCount, carrying only Handle plus the
image fields, all other columns blank — and only then the remaining variant
rows; so the extra image rows follow the product's *first* variant row, not
all of its variant rows. -/
theorem extra_image_rows_follow_first_variant_row (probe : String → Bool × String)
    (respect : Bool) (st : BuildState) (r : Row)
    (hcap : productVariantCount r ≤ 300)
    (himg : 2 ≤ (productImagePairs r).length) :
    ((processProduct probe respect st r).rows
      = st.rows ++
        ((productBaseRow respect st.nextBase (st.idx + 2)
            (productHandlePair st.usedHandles (st.idx + 2) r).1 r 0
            ((productCombos r).headD ((""), (""), ("")))
          ++ [(("Image Src"), ((productImagePairs r).headD ((""), (""))).1),
              (("Image Position"), ("1")),
              (("Image Alt Text"), ((productImagePairs r).headD ((""), (""))).2)])
         :: (productExtraImageRows (productHandlePair st.usedHandles (st.idx + 2) r).1 r
            ++ enumMapFrom (productBaseRow respect st.nextBase (st.idx + 2)
                (productHandlePair st.usedHandles (st.idx + 2) r).1 r) 1
                (productCombos r).tail)))
    ∧ (productExtraImageRows (productHandlePair st.usedHandles (st.idx + 2) r).1 r).map
        (fun row => rowGet row ("Image Position"))
        = (List.range ((productImagePairs r).length - 1)).map (fun k => toString (k + 2))
    ∧ (∀ row ∈ productExtraImageRows (productHandlePair st.usedHandles (st.idx + 2) r).1 r,
        rowGet row ("Handle") = (productHandlePair st.usedHandles (st.idx + 2) r).1
        ∧ ∀ k ∈ SHOPIFY_HEADERS,
            k ≠ ("Handle") → k ≠ ("Image Src") → k ≠ ("Image Position") →
            k ≠ ("Image Alt Text") → rowGet row k = ("")) := by
  have hpairs : productImagePairs r ≠ [] := by
    intro he
    rw [he] at himg
    simp at himg
  have hcap' : ¬300 < productVariantCount r := by omega
  obtain ⟨c, cs, hc⟩ : ∃ c cs, productCombos r = c :: cs := by
    cases hcs : productCombos r with
    | nil => exact absurd hcs (productCombos_ne_nil r)
    | cons c cs => exact ⟨c, cs, rfl⟩
  refine ⟨?_, productExtraImageRows_positions _ r hpairs, ?_⟩
  · rw [processProduct_ok probe respect st r hcap']
    show st.rows ++ productRows respect st.nextBase (st.idx + 2)
      (productHandlePair st.usedHandles (st.idx + 2) r).1 r = _
    rw [productRows, hc,
      assembleRows_first_with_images _ _ _ _ _ hpairs,
      List.headD_cons, List.tail_cons]
  · intro row hrow
    rw [productExtraImageRows, if_pos hpairs] at hrow
    obtain ⟨p, _, hprow⟩ := List.mem_map.mp hrow
    constructor
    · rw [← hprow, mkExtraImageRow_eq]
      rfl
    · intro k hk h1 h2 h3 h4
      rw [← hprow]
      exact rowGet_mkExtraImageRow_blank _ _ _ _ k hk h1 h2 h3 h4

/-- C1 (amended) witness: on the two-variant two-image demo product the loop
emits exactly three rows (first variant, extra image row, second variant). -/
theorem extra_image_rows_follow_first_variant_row_witness :
    (processProduct check_image_url false (buildInitState 0 none)
      twoVariantDemoRow).rows.length = 3 := by
  rw [(extra_image_rows_follow_first_variant_row check_image_url false
    (buildInitState 0 none) twoVariantDemoRow (by decide) (by decide)).1]
  rfl
